import Mathlib

/-!
# fuse-bindings: mount slot table, dispatcher and completion protocol

A shallow embedding of `src/fuse-bindings.cc`.  Pointers to mount entries are
represented by the entry they point to; the slot table `bindings_mounted` is a
map from positions to optional entries.  Handler invocations and thread
creation are recorded as events.
-/

namespace FuseBindings

/-! ## Data model -/

/-- Operation kinds, in the order of the source enumeration. -/
inductive bindings_ops_t where
  | OP_INIT
  | OP_ERROR
  | OP_ACCESS
  | OP_STATFS
  | OP_FGETATTR
  | OP_GETATTR
  | OP_FLUSH
  | OP_FSYNC
  | OP_FSYNCDIR
  | OP_READDIR
  | OP_TRUNCATE
  | OP_FTRUNCATE
  | OP_UTIMENS
  | OP_READLINK
  | OP_CHOWN
  | OP_CHMOD
  | OP_MKNOD
  | OP_SETXATTR
  | OP_GETXATTR
  | OP_OPEN
  | OP_OPENDIR
  | OP_READ
  | OP_WRITE
  | OP_RELEASE
  | OP_RELEASEDIR
  | OP_CREATE
  | OP_UNLINK
  | OP_RENAME
  | OP_LINK
  | OP_SYMLINK
  | OP_MKDIR
  | OP_RMDIR
  | OP_DESTROY
  deriving DecidableEq, Repr

open bindings_ops_t

/-- Seconds plus nanoseconds, as in `struct timespec`. -/
structure timespec where
  tv_sec : Int := 0
  tv_nsec : Int := 0
  deriving DecidableEq, Repr

/-- The fields of `struct stat` that `bindings_set_stat` writes (Linux branch). -/
structure stat where
  st_dev : Int := 0
  st_ino : Int := 0
  st_mode : Int := 0
  st_nlink : Int := 0
  st_uid : Int := 0
  st_gid : Int := 0
  st_rdev : Int := 0
  st_size : Int := 0
  st_blocks : Int := 0
  st_blksize : Int := 0
  st_mtim : timespec := {}
  st_ctim : timespec := {}
  st_atim : timespec := {}
  deriving DecidableEq, Repr

/-- The fields of `struct statvfs` that `bindings_set_statfs` writes. -/
structure statvfs where
  f_bsize : Int := 0
  f_frsize : Int := 0
  f_blocks : Int := 0
  f_bfree : Int := 0
  f_bavail : Int := 0
  f_files : Int := 0
  f_ffree : Int := 0
  f_favail : Int := 0
  f_fsid : Int := 0
  f_flag : Int := 0
  f_namemax : Int := 0
  deriving DecidableEq, Repr

/-- The kernel-owned `struct fuse_file_info` a request points to: open flags and
the 64-bit file-handle slot `fh`. -/
structure fuse_file_info where
  flags : Int := 0
  fh : Nat := 0
  deriving DecidableEq, Repr

/-- The kernel-owned memory `b->data` (a `void *`) points to, by the kind of
object the entry point stored there.  A directory buffer is represented by the
names the fill routine has been called with, in call order. -/
inductive Data where
  | null
  | stat_buf (s : stat)
  | statvfs_buf (s : statvfs)
  | dir_buf (fed : List String)
  | char_buf (s : String)
  | timespec_pair (atime mtime : timespec)
  deriving DecidableEq, Repr

/-- The kernel interface's directory-fill routine `fuse_fill_dir_t`: its return
value (non-zero means stop) for the names already fed and the name offered now.
The source always passes `&empty_stat` and offset 0. -/
abbrev fuse_fill_dir_t := List String → String → Int

/-- Handler-side (V8) values as far as the source inspects them.  Numbers are
integral (fractions, NaN and infinities are outside the model); an array is
represented by the UTF-8 conversion of its elements; `completion i` is the
completion callback bound to slot `i`; `buffer` is the byte container built by
`bindings_buffer` over kernel memory. -/
inductive Value where
  | undefined
  | number (n : Int)
  | string (s : String)
  | date (ms : Int)
  | function (id : Nat)
  | completion (index : Int)
  | array (items : List String)
  | buffer (data : Data) (length : Int)
  | object (props : List (String × Value))

namespace Value

/-- V8 `IsString`. -/
def IsString : Value → Bool
  | string _ => true
  | _ => false

/-- V8 `IsNumber`. -/
def IsNumber : Value → Bool
  | number _ => true
  | _ => false

/-- V8 `IsArray`. -/
def IsArray : Value → Bool
  | array _ => true
  | _ => false

/-- V8 `IsObject`: everything that is not a primitive. -/
def IsObject : Value → Bool
  | undefined => false
  | number _ => false
  | string _ => false
  | _ => true

/-- V8 `NumberValue` on integral numbers and dates (milliseconds).  Other values
(whose conversion is NaN or follows V8 string parsing) are outside the model
and read as 0. -/
def NumberValue : Value → Int
  | number n => n
  | date ms => ms
  | _ => 0

/-- V8 `Uint32Value`: the number modulo 2^32. -/
def Uint32Value (v : Value) : Nat :=
  (v.NumberValue % 4294967296).toNat

/-- The conversion `Nan::Utf8String` of a string value.  The source applies it
to a path it has checked with `IsString`, to a READLINK payload it has checked
likewise, and to array elements, which the model keeps already converted; other
values read as the empty string. -/
def Utf8String : Value → String
  | string s => s
  | _ => ""

/-- The own properties of a value used as `Local<Object>`. -/
def props : Value → List (String × Value)
  | object ps => ps
  | _ => []

/-- V8 `Has(key)`. -/
def Has (v : Value) (key : String) : Bool :=
  (v.props.lookup key).isSome

/-- V8 `Get(key)`. -/
def Get (v : Value) (key : String) : Value :=
  (v.props.lookup key).getD undefined

/-- The elements of a value used as `Local<Array>`. -/
def items : Value → List String
  | array xs => xs
  | _ => []

end Value

/-- A persistent handler reference (`Nan::Callback *`); `none` is `NULL`. -/
abbrev Callback := Value

/-- The argument `info[i]` of a native method; missing arguments read as
`undefined`. -/
def arg (info : List Value) (i : Nat) : Value :=
  (info.get? i).getD Value.undefined

/-- Storing a `uint32_t` into an `int` (two's complement). -/
def int_of_uint32 (u : Nat) : Int :=
  if u < 2147483648 then (u : Int) else (u : Int) - 4294967296

/-- Conversion of an integer to a C `int` (two's complement wrap). -/
def to_int32 (x : Int) : Int :=
  int_of_uint32 (x % 4294967296).toNat

/-- The mount entry `struct bindings_t`.  The default value of every field is
its all-zero content, so `({} : bindings_t)` is the result of
`memset(b, 0, sizeof(bindings_t))`.  `semaphore` is the count of the
completion gate; `info` is the kernel structure `b->info` points to. -/
structure bindings_t where
  index : Int := 0
  gc : Int := 0
  context_uid : Int := 0
  context_gid : Int := 0
  context_pid : Int := 0
  mnt : String := ""
  mntopts : String := ""
  semaphore : Nat := 0
  ops_init : Option Callback := none
  ops_error : Option Callback := none
  ops_access : Option Callback := none
  ops_statfs : Option Callback := none
  ops_getattr : Option Callback := none
  ops_fgetattr : Option Callback := none
  ops_flush : Option Callback := none
  ops_fsync : Option Callback := none
  ops_fsyncdir : Option Callback := none
  ops_readdir : Option Callback := none
  ops_truncate : Option Callback := none
  ops_ftruncate : Option Callback := none
  ops_readlink : Option Callback := none
  ops_chown : Option Callback := none
  ops_chmod : Option Callback := none
  ops_mknod : Option Callback := none
  ops_setxattr : Option Callback := none
  ops_getxattr : Option Callback := none
  ops_open : Option Callback := none
  ops_opendir : Option Callback := none
  ops_read : Option Callback := none
  ops_write : Option Callback := none
  ops_release : Option Callback := none
  ops_releasedir : Option Callback := none
  ops_create : Option Callback := none
  ops_utimens : Option Callback := none
  ops_unlink : Option Callback := none
  ops_rename : Option Callback := none
  ops_link : Option Callback := none
  ops_symlink : Option Callback := none
  ops_mkdir : Option Callback := none
  ops_rmdir : Option Callback := none
  ops_destroy : Option Callback := none
  callback : Option Callback := none
  op : bindings_ops_t := OP_INIT
  filler : fuse_fill_dir_t := fun _ _ => 0
  info : fuse_file_info := {}
  path : String := ""
  name : String := ""
  offset : Int := 0
  length : Int := 0
  data : Data := Data.null
  mode : Int := 0
  dev : Int := 0
  uid : Int := 0
  gid : Int := 0
  result : Int := 0

/-- Effects on the outside world: a driver thread being created for the entry
stored at a slot, a handler being called with an argument list, the forced
unmount `fusermount(path)`, and the join of the driver thread of the entry
stored at a slot. -/
inductive Event where
  | thread_create (slot : Nat)
  | call (fn : Callback) (argc : Nat) (argv : List Value)
  | fusermount (path : String)
  | thread_join (slot : Nat)

/-- The process-global state: the slot table `bindings_mounted[1024]`, the
high-water mark `bindings_mounted_count` and `bindings_current` (the slot of
the entry it points to, `none` for `NULL`). -/
structure State where
  bindings_mounted : Nat → Option bindings_t := fun _ => none
  bindings_mounted_count : Nat := 0
  bindings_current : Option Nat := none

/-- The state at program start: an all-`NULL` table and mark 0. -/
def State.empty : State := {}

/-! ## Mount slot table -/

/-- The source function `bindings_alloc`: scan below the mark for the first
`NULL` slot, otherwise extend the mark while it is below 1024; a found slot
receives a zeroed entry whose `index` is the slot.  Returns `free_index`. -/
def bindings_alloc (s : State) : Int × State :=
  let free_index : Int :=
    match (List.range s.bindings_mounted_count).find? (fun i => (s.bindings_mounted i).isNone) with
    | some i => (i : Int)
    | none => -1
  let r : Int × State :=
    if free_index = -1 ∧ s.bindings_mounted_count < 1024 then
      ((s.bindings_mounted_count : Int),
        { s with bindings_mounted_count := s.bindings_mounted_count + 1 })
    else (free_index, s)
  if r.1 ≠ -1 then
    (r.1, { r.2 with
      bindings_mounted :=
        Function.update r.2.bindings_mounted r.1.toNat (some { index := r.1 }) })
  else (r.1, r.2)

/-- The loop of `bindings_free`: lower the mark while it is positive and the
slot just below it is `NULL`. -/
def shrink_count (m : Nat → Option bindings_t) : Nat → Nat
  | 0 => 0
  | n + 1 => if (m n).isNone then shrink_count m n else n + 1

/-- The source function `bindings_free` (table part; the handler references and
the entry's memory are released): clear slot `b->index`, then shrink the
mark. -/
def bindings_free (s : State) (b : bindings_t) : State :=
  let m := Function.update s.bindings_mounted b.index.toNat none
  { s with
    bindings_mounted := m
    bindings_mounted_count := shrink_count m s.bindings_mounted_count }

/-- One handler slot of `Mount`: `ops->Has(key) ? new Nan::Callback(ops->Get(key)) : NULL`. -/
def mount_op (ops : Value) (key : String) : Option Callback :=
  if ops.Has key then some (ops.Get key) else none

/-- The option loop of `Mount`: starting from "-o", append each option,
separated by commas. -/
def mount_options (options : List String) : String :=
  options.foldl (fun acc o => (if acc ≠ "-o" then acc ++ "," else acc) ++ o) "-o"

/-- Modelled from the spec: the completion callback produced by the handler-side
`callback_constructor` (set through `SetCallback`, defined outside this file):
"a completion callback reference" that carries the slot index it was built
for and passes it to `OpCallback` as `info[0]`. -/
def callback_constructor (index : Int) : Value :=
  Value.completion index

/-- The entry `Mount` builds after `memset(b, 0, sizeof(bindings_t))`: handler
references, completion callback, mount path and option string.  The field
`index` is not assigned again after the `memset`. -/
def mount_entry (index : Int) (path : String) (ops : Value) : bindings_t :=
  { ops_init := mount_op ops "init"
    ops_error := mount_op ops "error"
    ops_access := mount_op ops "access"
    ops_statfs := mount_op ops "statfs"
    ops_getattr := mount_op ops "getattr"
    ops_fgetattr := mount_op ops "fgetattr"
    ops_flush := mount_op ops "flush"
    ops_fsync := mount_op ops "fsync"
    ops_fsyncdir := mount_op ops "fsyncdir"
    ops_readdir := mount_op ops "readdir"
    ops_truncate := mount_op ops "truncate"
    ops_ftruncate := mount_op ops "ftruncate"
    ops_readlink := mount_op ops "readlink"
    ops_chown := mount_op ops "chown"
    ops_chmod := mount_op ops "chmod"
    ops_mknod := mount_op ops "mknod"
    ops_setxattr := mount_op ops "setxattr"
    ops_getxattr := mount_op ops "getxattr"
    ops_open := mount_op ops "open"
    ops_opendir := mount_op ops "opendir"
    ops_read := mount_op ops "read"
    ops_write := mount_op ops "write"
    ops_release := mount_op ops "release"
    ops_releasedir := mount_op ops "releasedir"
    ops_create := mount_op ops "create"
    ops_utimens := mount_op ops "utimens"
    ops_unlink := mount_op ops "unlink"
    ops_rename := mount_op ops "rename"
    ops_link := mount_op ops "link"
    ops_symlink := mount_op ops "symlink"
    ops_mkdir := mount_op ops "mkdir"
    ops_rmdir := mount_op ops "rmdir"
    ops_destroy := mount_op ops "destroy"
    callback := some (callback_constructor index)
    mnt := path
    mntopts :=
      if (ops.Get "options").IsArray then mount_options (ops.Get "options").items else "-o"
    semaphore := 0 }

/-- The native method `Mount`: the thrown error (if any), the state afterwards
and the events.  A non-string path and a failed allocation throw before the
entry is touched; otherwise the entry at the allocated slot is zeroed, filled
in and its driver thread is created. -/
def Mount (s : State) (info : List Value) : Option String × State × List Event :=
  if !(arg info 0).IsString then (some "mnt must be a string", s, [])
  else
    let r := bindings_alloc s
    if r.1 = -1 then
      (some "You cannot mount more than 1024 filesystem in one process", r.2, [])
    else
      let b := mount_entry r.1 (arg info 0).Utf8String (arg info 1)
      (none,
        { r.2 with
          bindings_mounted :=
            Function.update r.2.bindings_mounted r.1.toNat
              ((r.2.bindings_mounted r.1.toNat).map (fun _ => b)) },
        [Event.thread_create r.1.toNat])

/-- Table states reachable from the empty table by `bindings_alloc`, `Mount`
and `bindings_free` of an entry the table holds. -/
inductive Reachable : State → Prop where
  | empty : Reachable State.empty
  | alloc (s : State) : Reachable s → Reachable (bindings_alloc s).2
  | mount (s : State) (info : List Value) : Reachable s → Reachable (Mount s info).2.1
  | free (s : State) (p : Nat) (b : bindings_t) :
      Reachable s → s.bindings_mounted p = some b → Reachable (bindings_free s b)

/-- The table invariant: the mark is at most 1024 and every slot at or above
the mark is `NULL`. -/
def WellFormed (s : State) : Prop :=
  s.bindings_mounted_count ≤ 1024 ∧
    ∀ i, s.bindings_mounted_count ≤ i → s.bindings_mounted i = none

/-! ## Completion gate -/

/-- Modelled from the spec: `semaphore_signal` of `abstractions.h`, which is not
among the sources.  The Completion Gate is the "per-mount synchronization
primitive releasing exactly one waiting Driver Thread per signal": a signal
raises the gate count by one. -/
def semaphore_signal (b : bindings_t) : bindings_t :=
  { b with semaphore := b.semaphore + 1 }

/-- Modelled from the spec: `semaphore_wait` of `abstractions.h`, which is not
among the sources.  "A Driver Thread suspends on its Completion Gate between
raising a dispatch signal and receiving the completion signal": the wait
returns, taking one unit of the gate count, only when the count is positive;
`none` means the thread is still blocked. -/
def semaphore_wait (b : bindings_t) : Option bindings_t :=
  if 0 < b.semaphore then some { b with semaphore := b.semaphore - 1 } else none

/-- The part of `bindings_call` after `uv_async_send`: wait on the gate, then
return `b->result`. -/
def bindings_call_return (b : bindings_t) : Option (Int × bindings_t) :=
  (semaphore_wait b).map (fun b1 => (b1.result, b1))

/-! ## Driver-thread entry points -/

/-- The fields of `struct fuse_context` read by `bindings_get_context`: `uid`
and `gid` are `uid_t` and `gid_t` values (unsigned 32-bit), `pid` is a `pid_t`
(an `int`). -/
structure fuse_context where
  uid : Int := 0
  gid : Int := 0
  pid : Int := 0
  deriving DecidableEq, Repr

/-- The source function `bindings_get_context`: copy the caller's pid, uid and
gid into the `int` fields of the entry (`ctx->private_data`); the unsigned uid
and gid are converted to `int`, so values from 2^31 on wrap negative. -/
def bindings_get_context (ctx : fuse_context) (b : bindings_t) : bindings_t :=
  { b with
    context_pid := ctx.pid
    context_uid := to_int32 ctx.uid
    context_gid := to_int32 ctx.gid }

/-- The source function `bindings_read` up to its `bindings_call`: the request
record of a READ. -/
def bindings_read (ctx : fuse_context) (b : bindings_t) (path : String) (buf : String)
    (len : Int) (offset : Int) (info : fuse_file_info) : bindings_t :=
  { bindings_get_context ctx b with
    op := OP_READ, path := path, data := Data.char_buf buf, offset := offset,
    length := len, info := info }

/-- The source function `bindings_getattr` up to its `bindings_call`. -/
def bindings_getattr (ctx : fuse_context) (b : bindings_t) (path : String) (st : stat) :
    bindings_t :=
  { bindings_get_context ctx b with op := OP_GETATTR, path := path, data := Data.stat_buf st }

/-- The source function `bindings_readdir` up to its `bindings_call`. -/
def bindings_readdir (ctx : fuse_context) (b : bindings_t) (path : String)
    (buf : List String) (filler : fuse_fill_dir_t) : bindings_t :=
  { bindings_get_context ctx b with
    op := OP_READDIR, path := path, data := Data.dir_buf buf, filler := filler }

/-- The handler reference the entry holds for an operation kind (the field
`ops_<kind>`). -/
def handler_of (b : bindings_t) : bindings_ops_t → Option Callback
  | OP_INIT => b.ops_init
  | OP_ERROR => b.ops_error
  | OP_ACCESS => b.ops_access
  | OP_STATFS => b.ops_statfs
  | OP_FGETATTR => b.ops_fgetattr
  | OP_GETATTR => b.ops_getattr
  | OP_FLUSH => b.ops_flush
  | OP_FSYNC => b.ops_fsync
  | OP_FSYNCDIR => b.ops_fsyncdir
  | OP_READDIR => b.ops_readdir
  | OP_TRUNCATE => b.ops_truncate
  | OP_FTRUNCATE => b.ops_ftruncate
  | OP_UTIMENS => b.ops_utimens
  | OP_READLINK => b.ops_readlink
  | OP_CHOWN => b.ops_chown
  | OP_CHMOD => b.ops_chmod
  | OP_MKNOD => b.ops_mknod
  | OP_SETXATTR => b.ops_setxattr
  | OP_GETXATTR => b.ops_getxattr
  | OP_OPEN => b.ops_open
  | OP_OPENDIR => b.ops_opendir
  | OP_READ => b.ops_read
  | OP_WRITE => b.ops_write
  | OP_RELEASE => b.ops_release
  | OP_RELEASEDIR => b.ops_releasedir
  | OP_CREATE => b.ops_create
  | OP_UNLINK => b.ops_unlink
  | OP_RENAME => b.ops_rename
  | OP_LINK => b.ops_link
  | OP_SYMLINK => b.ops_symlink
  | OP_MKDIR => b.ops_mkdir
  | OP_RMDIR => b.ops_rmdir
  | OP_DESTROY => b.ops_destroy

/-- The table `struct fuse_operations ops` built by `bindings_thread`: whether
the entry point of an operation kind is installed.  Each entry point is
installed only when its handler reference is not `NULL`; ERROR has no entry
point (the thread raises it itself). -/
def bindings_thread_ops (b : bindings_t) : bindings_ops_t → Bool
  | OP_ERROR => false
  | OP_ACCESS => b.ops_access.isSome
  | OP_TRUNCATE => b.ops_truncate.isSome
  | OP_FTRUNCATE => b.ops_ftruncate.isSome
  | OP_GETATTR => b.ops_getattr.isSome
  | OP_FGETATTR => b.ops_fgetattr.isSome
  | OP_FLUSH => b.ops_flush.isSome
  | OP_FSYNC => b.ops_fsync.isSome
  | OP_FSYNCDIR => b.ops_fsyncdir.isSome
  | OP_READDIR => b.ops_readdir.isSome
  | OP_READLINK => b.ops_readlink.isSome
  | OP_CHOWN => b.ops_chown.isSome
  | OP_CHMOD => b.ops_chmod.isSome
  | OP_MKNOD => b.ops_mknod.isSome
  | OP_SETXATTR => b.ops_setxattr.isSome
  | OP_GETXATTR => b.ops_getxattr.isSome
  | OP_STATFS => b.ops_statfs.isSome
  | OP_OPEN => b.ops_open.isSome
  | OP_OPENDIR => b.ops_opendir.isSome
  | OP_READ => b.ops_read.isSome
  | OP_WRITE => b.ops_write.isSome
  | OP_RELEASE => b.ops_release.isSome
  | OP_RELEASEDIR => b.ops_releasedir.isSome
  | OP_CREATE => b.ops_create.isSome
  | OP_UTIMENS => b.ops_utimens.isSome
  | OP_UNLINK => b.ops_unlink.isSome
  | OP_RENAME => b.ops_rename.isSome
  | OP_LINK => b.ops_link.isSome
  | OP_SYMLINK => b.ops_symlink.isSome
  | OP_MKDIR => b.ops_mkdir.isSome
  | OP_RMDIR => b.ops_rmdir.isSome
  | OP_INIT => b.ops_init.isSome
  | OP_DESTROY => b.ops_destroy.isSome

/-! ## Completion callback -/

/-- The source function `bindings_get_date` (non-Windows branch):
`int ms = tv_nsec / 1000; Date(tv_sec * 1000 + ms)`. -/
def bindings_get_date (out : timespec) : Value :=
  Value.date (out.tv_sec * 1000 + to_int32 (Int.tdiv out.tv_nsec 1000))

/-- The source function `bindings_set_date` (non-Windows branch): seconds are
the milliseconds divided by 1000 and truncated, nanoseconds the remaining
milliseconds times 1000000. -/
def bindings_set_date (date : Value) : timespec :=
  let ms := date.NumberValue
  let secs := Int.tdiv ms 1000
  let rem := ms - 1000 * secs
  let ns := rem * 1000000
  { tv_sec := secs, tv_nsec := ns }

/-- The source function `bindings_set_stat` (Linux branch): each field whose key
the object has is overwritten, in source order.  The narrowing of the number
to the width of the field is not modelled, except for `mode`, read with
`Uint32Value`. -/
def bindings_set_stat (st : stat) (obj : Value) : stat :=
  let st := if obj.Has "dev" then { st with st_dev := (obj.Get "dev").NumberValue } else st
  let st := if obj.Has "ino" then { st with st_ino := (obj.Get "ino").NumberValue } else st
  let st := if obj.Has "mode" then { st with st_mode := (obj.Get "mode").Uint32Value } else st
  let st := if obj.Has "nlink" then { st with st_nlink := (obj.Get "nlink").NumberValue } else st
  let st := if obj.Has "uid" then { st with st_uid := (obj.Get "uid").NumberValue } else st
  let st := if obj.Has "gid" then { st with st_gid := (obj.Get "gid").NumberValue } else st
  let st := if obj.Has "rdev" then { st with st_rdev := (obj.Get "rdev").NumberValue } else st
  let st := if obj.Has "size" then { st with st_size := (obj.Get "size").NumberValue } else st
  let st :=
    if obj.Has "blocks" then { st with st_blocks := (obj.Get "blocks").NumberValue } else st
  let st :=
    if obj.Has "blksize" then { st with st_blksize := (obj.Get "blksize").NumberValue } else st
  let st :=
    if obj.Has "mtime" then { st with st_mtim := bindings_set_date (obj.Get "mtime") } else st
  let st :=
    if obj.Has "ctime" then { st with st_ctim := bindings_set_date (obj.Get "ctime") } else st
  let st :=
    if obj.Has "atime" then { st with st_atim := bindings_set_date (obj.Get "atime") } else st
  st

/-- The source function `bindings_set_statfs`: each field whose key the object
has is overwritten with the `Uint32Value` of the property. -/
def bindings_set_statfs (st : statvfs) (obj : Value) : statvfs :=
  let st := if obj.Has "bsize" then { st with f_bsize := (obj.Get "bsize").Uint32Value } else st
  let st :=
    if obj.Has "frsize" then { st with f_frsize := (obj.Get "frsize").Uint32Value } else st
  let st :=
    if obj.Has "blocks" then { st with f_blocks := (obj.Get "blocks").Uint32Value } else st
  let st := if obj.Has "bfree" then { st with f_bfree := (obj.Get "bfree").Uint32Value } else st
  let st :=
    if obj.Has "bavail" then { st with f_bavail := (obj.Get "bavail").Uint32Value } else st
  let st := if obj.Has "files" then { st with f_files := (obj.Get "files").Uint32Value } else st
  let st := if obj.Has "ffree" then { st with f_ffree := (obj.Get "ffree").Uint32Value } else st
  let st :=
    if obj.Has "favail" then { st with f_favail := (obj.Get "favail").Uint32Value } else st
  let st := if obj.Has "fsid" then { st with f_fsid := (obj.Get "fsid").Uint32Value } else st
  let st := if obj.Has "flag" then { st with f_flag := (obj.Get "flag").Uint32Value } else st
  let st :=
    if obj.Has "namemax" then { st with f_namemax := (obj.Get "namemax").Uint32Value } else st
  st

/-- The loop of `bindings_set_dirs` on the directory buffer: call the fill
routine on each name in turn (the call is recorded by appending the name to the
names fed) and break as soon as a call returns non-zero. -/
def fill_dirs (filler : fuse_fill_dir_t) (fed : List String) : List String → List String
  | [] => fed
  | dir :: rest =>
    if filler fed dir ≠ 0 then fed ++ [dir] else fill_dirs filler (fed ++ [dir]) rest

/-- The source function `bindings_set_dirs`: run the fill loop with `b->filler`
on the directory buffer `b->data`. -/
def bindings_set_dirs (b : bindings_t) (dirs : List String) : bindings_t :=
  match b.data with
  | Data.dir_buf fed => { b with data := Data.dir_buf (fill_dirs b.filler fed dirs) }
  | _ => b

/-- The `switch (b->op)` of `OpCallback`, entered when the result is 0: apply
the payload `info[2]` according to the operation kind. -/
def apply_payload (b : bindings_t) (info : List Value) : bindings_t :=
  match b.op with
  | OP_STATFS =>
    if info.length > 2 ∧ (arg info 2).IsObject then
      match b.data with
      | Data.statvfs_buf st =>
        { b with data := Data.statvfs_buf (bindings_set_statfs st (arg info 2)) }
      | _ => b
    else b
  | OP_GETATTR | OP_FGETATTR =>
    if info.length > 2 ∧ (arg info 2).IsObject then
      match b.data with
      | Data.stat_buf st => { b with data := Data.stat_buf (bindings_set_stat st (arg info 2)) }
      | _ => b
    else b
  | OP_READDIR =>
    if info.length > 2 ∧ (arg info 2).IsArray then bindings_set_dirs b (arg info 2).items
    else b
  | OP_CREATE | OP_OPEN | OP_OPENDIR =>
    if info.length > 2 ∧ (arg info 2).IsNumber then
      { b with info := { b.info with fh := (arg info 2).Uint32Value } }
    else b
  | OP_READLINK =>
    if info.length > 2 ∧ (arg info 2).IsString then
      { b with data := Data.char_buf (arg info 2).Utf8String }
    else b
  | OP_INIT | OP_ERROR | OP_ACCESS | OP_FLUSH | OP_FSYNC | OP_FSYNCDIR | OP_TRUNCATE
  | OP_FTRUNCATE | OP_CHOWN | OP_CHMOD | OP_MKNOD | OP_SETXATTR | OP_GETXATTR | OP_READ
  | OP_UTIMENS | OP_WRITE | OP_RELEASE | OP_RELEASEDIR | OP_UNLINK | OP_RENAME | OP_LINK
  | OP_SYMLINK | OP_MKDIR | OP_RMDIR | OP_DESTROY => b

/-- The body of `OpCallback` on the entry `b = bindings_mounted[info[0]]`: store
the result (`Uint32Value` of `info[1]` when it is a number, else 0, into the
`int` field), apply the payload when the stored result is 0, signal the
gate. -/
def OpCallback_entry (b : bindings_t) (info : List Value) : bindings_t :=
  let b : bindings_t :=
    { b with
      result :=
        int_of_uint32
          (if info.length > 1 ∧ (arg info 1).IsNumber then (arg info 1).Uint32Value else 0) }
  let b := if b.result = 0 then apply_payload b info else b
  semaphore_signal b

/-- The native method `OpCallback`.  `none` stands for the dereference of a
`NULL` slot. -/
def OpCallback (s : State) (info : List Value) : Option State :=
  match s.bindings_mounted (arg info 0).Uint32Value with
  | none => none
  | some b =>
    some { s with
      bindings_mounted :=
        Function.update s.bindings_mounted (arg info 0).Uint32Value
          (some (OpCallback_entry b info))
      bindings_current := none }

/-! ## Dispatcher -/

/-- The source function `bindings_call_op`: signal the gate when the handler
reference is `NULL`, otherwise call the handler with the arguments. -/
def bindings_call_op (b : bindings_t) (fn : Option Callback) (argc : Nat)
    (argv : List Value) : bindings_t × List Event :=
  match fn with
  | none => (semaphore_signal b, [])
  | some f => (b, [Event.call f argc argv])

/-- The `switch (b->op)` of `bindings_dispatch`: build the argument list of the
operation kind and hand it to `bindings_call_op` with that kind's handler
reference.  `Nan::New<Number>` of an integer field is the integer itself (the
conversion to a double is exact below 2^53); the second path of RENAME, LINK
and SYMLINK is the string `b->data` points to. -/
def dispatch_switch (b : bindings_t) (callback : Value) : bindings_t × List Event :=
  let path := Value.string b.path
  let fh := Value.number (b.info.fh : Int)
  let mode := Value.number b.mode
  let length := Value.number b.length
  let offset := Value.number b.offset
  let second := Value.string (match b.data with | Data.char_buf d => d | _ => "")
  let buffer := Value.buffer b.data b.length
  match b.op with
  | OP_INIT => bindings_call_op b b.ops_init 1 [callback]
  | OP_ERROR => bindings_call_op b b.ops_error 1 [callback]
  | OP_STATFS => bindings_call_op b b.ops_statfs 2 [path, callback]
  | OP_FGETATTR => bindings_call_op b b.ops_fgetattr 3 [path, fh, callback]
  | OP_GETATTR => bindings_call_op b b.ops_getattr 2 [path, callback]
  | OP_READDIR => bindings_call_op b b.ops_readdir 2 [path, callback]
  | OP_CREATE => bindings_call_op b b.ops_create 3 [path, mode, callback]
  | OP_TRUNCATE => bindings_call_op b b.ops_truncate 3 [path, length, callback]
  | OP_FTRUNCATE => bindings_call_op b b.ops_ftruncate 4 [path, fh, length, callback]
  | OP_ACCESS => bindings_call_op b b.ops_access 3 [path, mode, callback]
  | OP_OPEN => bindings_call_op b b.ops_open 3 [path, mode, callback]
  | OP_OPENDIR => bindings_call_op b b.ops_opendir 3 [path, mode, callback]
  | OP_WRITE => bindings_call_op b b.ops_write 6 [path, fh, buffer, length, offset, callback]
  | OP_READ => bindings_call_op b b.ops_read 6 [path, fh, buffer, length, offset, callback]
  | OP_RELEASE => bindings_call_op b b.ops_release 3 [path, fh, callback]
  | OP_RELEASEDIR => bindings_call_op b b.ops_releasedir 3 [path, fh, callback]
  | OP_UNLINK => bindings_call_op b b.ops_unlink 2 [path, callback]
  | OP_RENAME => bindings_call_op b b.ops_rename 3 [path, second, callback]
  | OP_LINK => bindings_call_op b b.ops_link 3 [path, second, callback]
  | OP_SYMLINK => bindings_call_op b b.ops_symlink 3 [path, second, callback]
  | OP_CHMOD => bindings_call_op b b.ops_chmod 3 [path, mode, callback]
  | OP_MKNOD => bindings_call_op b b.ops_mknod 4 [path, mode, Value.number b.dev, callback]
  | OP_CHOWN =>
    bindings_call_op b b.ops_chown 4 [path, Value.number b.uid, Value.number b.gid, callback]
  | OP_READLINK => bindings_call_op b b.ops_readlink 2 [path, callback]
  | OP_SETXATTR =>
    bindings_call_op b b.ops_setxattr 7
      [path, Value.string b.name, buffer, length, offset, mode, callback]
  | OP_GETXATTR =>
    bindings_call_op b b.ops_getxattr 6
      [path, Value.string b.name, buffer, length, offset, callback]
  | OP_MKDIR => bindings_call_op b b.ops_mkdir 3 [path, mode, callback]
  | OP_RMDIR => bindings_call_op b b.ops_rmdir 2 [path, callback]
  | OP_DESTROY => bindings_call_op b b.ops_destroy 1 [callback]
  | OP_UTIMENS =>
    match b.data with
    | Data.timespec_pair atime mtime =>
      bindings_call_op b b.ops_utimens 4
        [path, bindings_get_date atime, bindings_get_date mtime, callback]
    | _ =>
      bindings_call_op b b.ops_utimens 4
        [path, bindings_get_date {}, bindings_get_date {}, callback]
  | OP_FLUSH => bindings_call_op b b.ops_flush 3 [path, fh, callback]
  | OP_FSYNC => bindings_call_op b b.ops_fsync 4 [path, fh, mode, callback]
  | OP_FSYNCDIR => bindings_call_op b b.ops_fsyncdir 4 [path, fh, mode, callback]

/-- The body of `bindings_dispatch` on the entry `b = handle->data`: preset the
result to -1, then run the switch.  `b->callback` is set by `Mount` for every
mounted entry; a `NULL` reference reads as `undefined`. -/
def bindings_dispatch_entry (b : bindings_t) : bindings_t × List Event :=
  dispatch_switch { b with result := -1 } (b.callback.getD Value.undefined)

/-- The source function `bindings_dispatch`; `handle` is the slot of the entry
`handle->data` points to, which becomes `bindings_current`.  `none` stands for
a handle without entry. -/
def bindings_dispatch (s : State) (handle : Nat) : Option (State × List Event) :=
  match s.bindings_mounted handle with
  | none => none
  | some b =>
    some ({ s with
        bindings_mounted :=
          Function.update s.bindings_mounted handle (some (bindings_dispatch_entry b).1)
        bindings_current := some handle },
      (bindings_dispatch_entry b).2)

/-! ## Remaining driver-thread entry points -/

/-- The source function `bindings_mknod` up to its `bindings_call`. -/
def bindings_mknod (ctx : fuse_context) (b : bindings_t) (path : String) (mode dev : Int) :
    bindings_t :=
  { bindings_get_context ctx b with op := OP_MKNOD, path := path, mode := mode, dev := dev }

/-- The source function `bindings_truncate` up to its `bindings_call`. -/
def bindings_truncate (ctx : fuse_context) (b : bindings_t) (path : String) (size : Int) :
    bindings_t :=
  { bindings_get_context ctx b with op := OP_TRUNCATE, path := path, length := size }

/-- The source function `bindings_ftruncate` up to its `bindings_call`. -/
def bindings_ftruncate (ctx : fuse_context) (b : bindings_t) (path : String) (size : Int)
    (info : fuse_file_info) : bindings_t :=
  { bindings_get_context ctx b with
    op := OP_FTRUNCATE, path := path, length := size, info := info }

/-- The source function `bindings_fgetattr` up to its `bindings_call`. -/
def bindings_fgetattr (ctx : fuse_context) (b : bindings_t) (path : String) (st : stat)
    (info : fuse_file_info) : bindings_t :=
  { bindings_get_context ctx b with
    op := OP_FGETATTR, path := path, data := Data.stat_buf st, info := info }

/-- The source function `bindings_flush` up to its `bindings_call`. -/
def bindings_flush (ctx : fuse_context) (b : bindings_t) (path : String)
    (info : fuse_file_info) : bindings_t :=
  { bindings_get_context ctx b with op := OP_FLUSH, path := path, info := info }

/-- The source function `bindings_fsync` up to its `bindings_call`. -/
def bindings_fsync (ctx : fuse_context) (b : bindings_t) (path : String) (datasync : Int)
    (info : fuse_file_info) : bindings_t :=
  { bindings_get_context ctx b with
    op := OP_FSYNC, path := path, mode := datasync, info := info }

/-- The source function `bindings_fsyncdir` up to its `bindings_call`. -/
def bindings_fsyncdir (ctx : fuse_context) (b : bindings_t) (path : String) (datasync : Int)
    (info : fuse_file_info) : bindings_t :=
  { bindings_get_context ctx b with
    op := OP_FSYNCDIR, path := path, mode := datasync, info := info }

/-- The source function `bindings_readlink` up to its `bindings_call`. -/
def bindings_readlink (ctx : fuse_context) (b : bindings_t) (path : String) (buf : String)
    (len : Int) : bindings_t :=
  { bindings_get_context ctx b with
    op := OP_READLINK, path := path, data := Data.char_buf buf, length := len }

/-- The source function `bindings_chown` up to its `bindings_call`. -/
def bindings_chown (ctx : fuse_context) (b : bindings_t) (path : String) (uid gid : Int) :
    bindings_t :=
  { bindings_get_context ctx b with op := OP_CHOWN, path := path, uid := uid, gid := gid }

/-- The source function `bindings_chmod` up to its `bindings_call`. -/
def bindings_chmod (ctx : fuse_context) (b : bindings_t) (path : String) (mode : Int) :
    bindings_t :=
  { bindings_get_context ctx b with op := OP_CHMOD, path := path, mode := mode }

/-- The source function `bindings_setxattr` (non-Apple branch) up to its
`bindings_call`. -/
def bindings_setxattr (ctx : fuse_context) (b : bindings_t) (path name value : String)
    (size flags : Int) : bindings_t :=
  { bindings_get_context ctx b with
    op := OP_SETXATTR, path := path, name := name, data := Data.char_buf value,
    length := size, offset := 0, mode := flags }

/-- The source function `bindings_getxattr` (non-Apple branch) up to its
`bindings_call`. -/
def bindings_getxattr (ctx : fuse_context) (b : bindings_t) (path name value : String)
    (size : Int) : bindings_t :=
  { bindings_get_context ctx b with
    op := OP_GETXATTR, path := path, name := name, data := Data.char_buf value,
    length := size, offset := 0 }

/-- The source function `bindings_statfs` up to its `bindings_call`. -/
def bindings_statfs (ctx : fuse_context) (b : bindings_t) (path : String) (st : statvfs) :
    bindings_t :=
  { bindings_get_context ctx b with op := OP_STATFS, path := path, data := Data.statvfs_buf st }

/-- The source function `bindings_open` up to its `bindings_call`. -/
def bindings_open (ctx : fuse_context) (b : bindings_t) (path : String)
    (info : fuse_file_info) : bindings_t :=
  { bindings_get_context ctx b with
    op := OP_OPEN, path := path, mode := info.flags, info := info }

/-- The source function `bindings_opendir` up to its `bindings_call`. -/
def bindings_opendir (ctx : fuse_context) (b : bindings_t) (path : String)
    (info : fuse_file_info) : bindings_t :=
  { bindings_get_context ctx b with
    op := OP_OPENDIR, path := path, mode := info.flags, info := info }

/-- The source function `bindings_write` up to its `bindings_call`. -/
def bindings_write (ctx : fuse_context) (b : bindings_t) (path : String) (buf : String)
    (len : Int) (offset : Int) (info : fuse_file_info) : bindings_t :=
  { bindings_get_context ctx b with
    op := OP_WRITE, path := path, data := Data.char_buf buf, offset := offset,
    length := len, info := info }

/-- The source function `bindings_release` up to its `bindings_call`. -/
def bindings_release (ctx : fuse_context) (b : bindings_t) (path : String)
    (info : fuse_file_info) : bindings_t :=
  { bindings_get_context ctx b with op := OP_RELEASE, path := path, info := info }

/-- The source function `bindings_releasedir` up to its `bindings_call`. -/
def bindings_releasedir (ctx : fuse_context) (b : bindings_t) (path : String)
    (info : fuse_file_info) : bindings_t :=
  { bindings_get_context ctx b with op := OP_RELEASEDIR, path := path, info := info }

/-- The source function `bindings_access` up to its `bindings_call`. -/
def bindings_access (ctx : fuse_context) (b : bindings_t) (path : String) (mode : Int) :
    bindings_t :=
  { bindings_get_context ctx b with op := OP_ACCESS, path := path, mode := mode }

/-- The source function `bindings_create` up to its `bindings_call`. -/
def bindings_create (ctx : fuse_context) (b : bindings_t) (path : String) (mode : Int)
    (info : fuse_file_info) : bindings_t :=
  { bindings_get_context ctx b with
    op := OP_CREATE, path := path, mode := mode, info := info }

/-- The source function `bindings_utimens` up to its `bindings_call`. -/
def bindings_utimens (ctx : fuse_context) (b : bindings_t) (path : String)
    (atime mtime : timespec) : bindings_t :=
  { bindings_get_context ctx b with
    op := OP_UTIMENS, path := path, data := Data.timespec_pair atime mtime }

/-- The source function `bindings_unlink` up to its `bindings_call`. -/
def bindings_unlink (ctx : fuse_context) (b : bindings_t) (path : String) : bindings_t :=
  { bindings_get_context ctx b with op := OP_UNLINK, path := path }

/-- The source function `bindings_rename` up to its `bindings_call`. -/
def bindings_rename (ctx : fuse_context) (b : bindings_t) (src dest : String) : bindings_t :=
  { bindings_get_context ctx b with op := OP_RENAME, path := src, data := Data.char_buf dest }

/-- The source function `bindings_link` up to its `bindings_call`. -/
def bindings_link (ctx : fuse_context) (b : bindings_t) (path dest : String) : bindings_t :=
  { bindings_get_context ctx b with op := OP_LINK, path := path, data := Data.char_buf dest }

/-- The source function `bindings_symlink` up to its `bindings_call`. -/
def bindings_symlink (ctx : fuse_context) (b : bindings_t) (path dest : String) :
    bindings_t :=
  { bindings_get_context ctx b with
    op := OP_SYMLINK, path := path, data := Data.char_buf dest }

/-- The source function `bindings_mkdir` up to its `bindings_call`. -/
def bindings_mkdir (ctx : fuse_context) (b : bindings_t) (path : String) (mode : Int) :
    bindings_t :=
  { bindings_get_context ctx b with op := OP_MKDIR, path := path, mode := mode }

/-- The source function `bindings_rmdir` up to its `bindings_call`. -/
def bindings_rmdir (ctx : fuse_context) (b : bindings_t) (path : String) : bindings_t :=
  { bindings_get_context ctx b with op := OP_RMDIR, path := path }

/-- The source function `bindings_init` up to its `bindings_call`. -/
def bindings_init (ctx : fuse_context) (b : bindings_t) : bindings_t :=
  { bindings_get_context ctx b with op := OP_INIT }

/-- The source function `bindings_destroy` up to its `bindings_call`. -/
def bindings_destroy (ctx : fuse_context) (b : bindings_t) : bindings_t :=
  { bindings_get_context ctx b with op := OP_DESTROY }

/-- A synchronous call of the kernel interface on one of the entry points that
`bindings_thread` can install, with the arguments the entry point reads. -/
inductive fuse_request where
  | mknod (path : String) (mode dev : Int)
  | truncate (path : String) (size : Int)
  | ftruncate (path : String) (size : Int) (info : fuse_file_info)
  | getattr (path : String) (st : stat)
  | fgetattr (path : String) (st : stat) (info : fuse_file_info)
  | flush (path : String) (info : fuse_file_info)
  | fsync (path : String) (datasync : Int) (info : fuse_file_info)
  | fsyncdir (path : String) (datasync : Int) (info : fuse_file_info)
  | readdir (path : String) (buf : List String) (filler : fuse_fill_dir_t)
  | readlink (path : String) (buf : String) (len : Int)
  | chown (path : String) (uid gid : Int)
  | chmod (path : String) (mode : Int)
  | setxattr (path name value : String) (size flags : Int)
  | getxattr (path name value : String) (size : Int)
  | statfs (path : String) (st : statvfs)
  | open (path : String) (info : fuse_file_info)
  | opendir (path : String) (info : fuse_file_info)
  | read (path : String) (buf : String) (len offset : Int) (info : fuse_file_info)
  | write (path : String) (buf : String) (len offset : Int) (info : fuse_file_info)
  | release (path : String) (info : fuse_file_info)
  | releasedir (path : String) (info : fuse_file_info)
  | access (path : String) (mode : Int)
  | create (path : String) (mode : Int) (info : fuse_file_info)
  | utimens (path : String) (atime mtime : timespec)
  | unlink (path : String)
  | rename (src dest : String)
  | link (path dest : String)
  | symlink (path dest : String)
  | mkdir (path : String) (mode : Int)
  | rmdir (path : String)
  | init
  | destroy

/-- The request record the driver thread has written when it reaches
`bindings_call`: the entry point of the kernel call, applied to the entry. -/
def bindings_entry_point (ctx : fuse_context) (b : bindings_t) : fuse_request → bindings_t
  | .mknod path mode dev => bindings_mknod ctx b path mode dev
  | .truncate path size => bindings_truncate ctx b path size
  | .ftruncate path size info => bindings_ftruncate ctx b path size info
  | .getattr path st => bindings_getattr ctx b path st
  | .fgetattr path st info => bindings_fgetattr ctx b path st info
  | .flush path info => bindings_flush ctx b path info
  | .fsync path datasync info => bindings_fsync ctx b path datasync info
  | .fsyncdir path datasync info => bindings_fsyncdir ctx b path datasync info
  | .readdir path buf filler => bindings_readdir ctx b path buf filler
  | .readlink path buf len => bindings_readlink ctx b path buf len
  | .chown path uid gid => bindings_chown ctx b path uid gid
  | .chmod path mode => bindings_chmod ctx b path mode
  | .setxattr path name value size flags => bindings_setxattr ctx b path name value size flags
  | .getxattr path name value size => bindings_getxattr ctx b path name value size
  | .statfs path st => bindings_statfs ctx b path st
  | .open path info => bindings_open ctx b path info
  | .opendir path info => bindings_opendir ctx b path info
  | .read path buf len offset info => bindings_read ctx b path buf len offset info
  | .write path buf len offset info => bindings_write ctx b path buf len offset info
  | .release path info => bindings_release ctx b path info
  | .releasedir path info => bindings_releasedir ctx b path info
  | .access path mode => bindings_access ctx b path mode
  | .create path mode info => bindings_create ctx b path mode info
  | .utimens path atime mtime => bindings_utimens ctx b path atime mtime
  | .unlink path => bindings_unlink ctx b path
  | .rename src dest => bindings_rename ctx b src dest
  | .link path dest => bindings_link ctx b path dest
  | .symlink path dest => bindings_symlink ctx b path dest
  | .mkdir path mode => bindings_mkdir ctx b path mode
  | .rmdir path => bindings_rmdir ctx b path
  | .init => bindings_init ctx b
  | .destroy => bindings_destroy ctx b

/-! ## Lookup, unmount and context query -/

/-- The source function `bindings_find_mounted`: the position of the first slot
below the mark that holds an entry with clear garbage flag and the given mount
path (`NULL` is `none`). -/
def bindings_find_mounted (s : State) (path : String) : Option Nat :=
  (List.range s.bindings_mounted_count).find? (fun i =>
    match s.bindings_mounted i with
    | some b => b.gc = 0 ∧ b.mnt = path
    | none => false)

/-- The source function `bindings_unmount` (the lock is left to
`bindings_unmount_steps`): mark the entry found as garbage, call `fusermount`
on the path, and join the thread of the entry found. -/
def bindings_unmount (s : State) (path : String) : State × List Event :=
  match bindings_find_mounted s path with
  | some p =>
    ({ s with
        bindings_mounted :=
          Function.update s.bindings_mounted p
            ((s.bindings_mounted p).map (fun b => { b with gc := 1 })) },
      [Event.fusermount path, Event.thread_join p])
  | none => (s, [Event.fusermount path])

/-- The native method `PopulateContext`: the usage error when `bindings_current`
is `NULL`, otherwise the uid, gid and pid stored in the entry it points to.
`none` stands for a read through a pointer whose slot holds no entry. -/
def PopulateContext (s : State) : Option (Except String fuse_context) :=
  match s.bindings_current with
  | none => some (Except.error "You have to call this inside a fuse operation")
  | some p =>
    match s.bindings_mounted p with
    | none => none
    | some b =>
      some (Except.ok { uid := b.context_uid, gid := b.context_gid, pid := b.context_pid })

/-- The argument list of the handler call when the events are exactly one
handler call, and the empty list otherwise. -/
def called_argv : List Event → List Value
  | [Event.call _ _ argv] => argv
  | _ => []

/-! ## Locking skeleton of the operations that take the global lock -/

/-- The statements of `Mount`, `bindings_unmount` and `bindings_on_close` as far
as the global lock is concerned: taking and releasing `mutex`, writes and reads
of the slot table (`bindings_alloc` and `bindings_free` write it), writes to an
entry, and the calls that can block. -/
inductive LockStep where
  | mutex_lock
  | mutex_unlock
  | table_write
  | table_read
  | entry_write
  | fusermount
  | thread_join
  | semaphore_wait
  | thread_create
  deriving DecidableEq, Repr

/-- The statements of `Mount`, in source order, on the branch the state and the
arguments select: nothing before the first throw; `bindings_alloc` between
lock and unlock; after the second throw the read of `bindings_mounted[index]`
between lock and unlock, then the initialisation of the entry and
`thread_create`. -/
def Mount_steps (s : State) (info : List Value) : List LockStep :=
  if !(arg info 0).IsString then []
  else if (bindings_alloc s).1 = -1 then
    [LockStep.mutex_lock, LockStep.table_write, LockStep.mutex_unlock]
  else
    [LockStep.mutex_lock, LockStep.table_write, LockStep.mutex_unlock,
      LockStep.mutex_lock, LockStep.table_read, LockStep.mutex_unlock,
      LockStep.entry_write, LockStep.thread_create]

/-- The statements of `bindings_unmount`, in source order: lock, lookup, the
garbage flag when an entry was found, `bindings_fusermount`, `thread_join` when
an entry was found, unlock. -/
def bindings_unmount_steps (s : State) (path : String) : List LockStep :=
  [LockStep.mutex_lock, LockStep.table_read] ++
    (if (bindings_find_mounted s path).isSome then [LockStep.entry_write] else []) ++
    [LockStep.fusermount] ++
    (if (bindings_find_mounted s path).isSome then [LockStep.thread_join] else []) ++
    [LockStep.mutex_unlock]

/-- The statements of `bindings_on_close`: `bindings_free` between lock and
unlock. -/
def bindings_on_close_steps : List LockStep :=
  [LockStep.mutex_lock, LockStep.table_write, LockStep.mutex_unlock]

/-- The source function `bindings_on_close` on the table: `bindings_free` of the
entry `handle->data`. -/
def bindings_on_close (s : State) (b : bindings_t) : State :=
  bindings_free s b

/-- Whether a step can block the calling thread: the forced-unmount call, a
thread join, or a wait on a completion gate. -/
def LockStep.blocking : LockStep → Bool
  | .fusermount => true
  | .thread_join => true
  | .semaphore_wait => true
  | _ => false

/-- Every table write of the step list happens while the lock is held; `held`
says whether the lock is held at the start. -/
def table_writes_locked : Bool → List LockStep → Bool
  | _, [] => true
  | _, .mutex_lock :: rest => table_writes_locked true rest
  | _, .mutex_unlock :: rest => table_writes_locked false rest
  | held, .table_write :: rest => held && table_writes_locked held rest
  | held, _ :: rest => table_writes_locked held rest

/-- No blocking step of the step list happens while the lock is held. -/
def no_blocking_locked : Bool → List LockStep → Bool
  | _, [] => true
  | _, .mutex_lock :: rest => no_blocking_locked true rest
  | _, .mutex_unlock :: rest => no_blocking_locked false rest
  | held, x :: rest => !(held && x.blocking) && no_blocking_locked held rest

/-- No wait on a completion gate happens while the lock is held. -/
def no_gate_wait_locked : Bool → List LockStep → Bool
  | _, [] => true
  | _, .mutex_lock :: rest => no_gate_wait_locked true rest
  | _, .mutex_unlock :: rest => no_gate_wait_locked false rest
  | held, .semaphore_wait :: rest => !held && no_gate_wait_locked held rest
  | held, _ :: rest => no_gate_wait_locked held rest

/-! ## Driver thread on the table -/

/-- The driver thread of the entry stored at slot `p` runs an entry point up to
its `bindings_call`: the request record is written into that entry and the
dispatch signal is raised. -/
def bindings_enter (s : State) (p : Nat) (ctx : fuse_context) (r : fuse_request) : State :=
  { s with
    bindings_mounted :=
      Function.update s.bindings_mounted p
        ((s.bindings_mounted p).map (fun b => bindings_entry_point ctx b r)) }

/-- The driver thread of the entry stored at slot `p` passes the gate and its
`bindings_call` returns `b->result`; `none` while the gate is closed. -/
def bindings_leave (s : State) (p : Nat) : Option (Int × State) :=
  (s.bindings_mounted p).bind (fun b =>
    (bindings_call_return b).map (fun r =>
      (r.1, { s with bindings_mounted := Function.update s.bindings_mounted p (some r.2) })))

/-! ## Sample states -/

/-- The table after `n` successive calls of `bindings_alloc` on the empty
table. -/
def fill : Nat → State
  | 0 => State.empty
  | n + 1 => (bindings_alloc (fill n)).2

/-- The state after the first of two mounts on the empty table (path "/a",
no handlers). -/
def one_mount : State :=
  (Mount State.empty [Value.string "/a", Value.object []]).2.1

/-- The state after a second mount (path "/b", no handlers). -/
def two_mounts : State :=
  (Mount one_mount [Value.string "/b", Value.object []]).2.1

/-- A GETATTR request on a zeroed entry, as `bindings_getattr` records it, with
an all-zero attribute structure as output. -/
def getattr_request : bindings_t :=
  bindings_getattr {} {} "/f" {}

/-- An ERROR request as `bindings_thread` raises it (`b->op = OP_ERROR`) on a
freshly mounted entry that has no handlers. -/
def error_request : bindings_t :=
  { mount_entry 0 "/a" (Value.object []) with op := OP_ERROR }

/-- An entry whose only registered handler is GETATTR. -/
def getattr_only : bindings_t :=
  { ops_getattr := some (Value.function 1) }

/-- A READDIR request, as `bindings_readdir` records it, with an empty directory
buffer and a fill routine that reports stop on its second call. -/
def readdir_request : bindings_t :=
  bindings_readdir {} {} "/" [] (fun fed _ => if fed.length = 1 then 1 else 0)

/-- The state after two mounts on the same path "/a" (no handlers). -/
def same_path_mounts : State :=
  (Mount one_mount [Value.string "/a", Value.object []]).2.1

/-- An OPEN request on a zeroed entry, as `bindings_open` records it. -/
def open_request : bindings_t :=
  bindings_open {} {} "/f" {}

/-- A READ request on an entry with a READ handler, carrying the file
information of a file whose handle slot holds 7. -/
def read_request : bindings_t :=
  bindings_read {} { ops_read := some (Value.function 2), callback := some (Value.completion 0) }
    "/f" "" 4096 0 { fh := 7 }

/-- A table whose slot 0 holds an ERROR request on an entry without handlers. -/
def error_state : State :=
  { bindings_mounted := fun i => if i = 0 then some error_request else none,
    bindings_mounted_count := 1 }

/-- A GETATTR request on an entry whose garbage flag is set. -/
def garbage_request : bindings_t :=
  { getattr_request with gc := 1 }

/-- The timestamp of one second and 500 milliseconds. -/
def half_past_one : timespec :=
  { tv_sec := 1, tv_nsec := 500000000 }

/-- A STATFS request on a zeroed entry, as `bindings_statfs` records it, whose
output structure has block size 512. -/
def statfs_request : bindings_t :=
  bindings_statfs {} {} "/" { f_bsize := 512 }

/-- A table with two mounts that have a GETATTR handler each, after their driver
threads have written one GETATTR request each: slot 0 for a caller with uid
1000, gid 100, pid 4242, slot 1 for a caller with uid 2000, gid 200, pid
5252. -/
def two_requests : State :=
  { bindings_mounted := fun i =>
      if i = 0 then
        some (bindings_entry_point { uid := 1000, gid := 100, pid := 4242 } getattr_only
          (fuse_request.getattr "/f" {}))
      else if i = 1 then
        some (bindings_entry_point { uid := 2000, gid := 200, pid := 5252 } getattr_only
          (fuse_request.getattr "/g" {}))
      else none,
    bindings_mounted_count := 2 }

/-- The handler set of the sample run: a GETATTR handler only. -/
def run_ops : Value :=
  Value.object [("getattr", Value.function 1)]

/-- Sample run, step 1: mounts "/a" (slot 0) and "/b" (slot 1). -/
def run_two : State :=
  (Mount (Mount State.empty [Value.string "/a", run_ops]).2.1
    [Value.string "/b", run_ops]).2.1

/-- Sample run, step 2: the driver thread of "/a" raises a GETATTR request and
`bindings_dispatch` calls the handler, which stays pending. -/
def run_a_dispatched : Option (State × List Event) :=
  bindings_dispatch (bindings_enter run_two 0 {} (fuse_request.getattr "/x" {})) 0

/-- Sample run, step 3: the driver thread of "/b" ends and `bindings_on_close`
frees the entry held by slot 1. -/
def run_b_freed : Option State :=
  run_a_dispatched.bind (fun r =>
    (r.1.bindings_mounted 1).map (fun b => bindings_on_close r.1 b))

/-- Sample run, step 4: a third mount "/c". -/
def run_c_mounted : Option State :=
  run_b_freed.map (fun s => (Mount s [Value.string "/c", run_ops]).2.1)

/-- Sample run, step 5: the driver thread of "/c" raises a GETATTR request and
`bindings_dispatch` calls the handler, which stays pending. -/
def run_c_dispatched : Option (State × List Event) :=
  run_c_mounted.bind (fun s =>
    bindings_dispatch (bindings_enter s 0 {} (fuse_request.getattr "/y" {})) 0)

/-- Sample run, step 6: the pending handler of "/a" calls the completion
callback it was given, which is bound to index 0, with result 0. -/
def run_a_completes : Option State :=
  run_c_dispatched.bind (fun r => OpCallback r.1 [Value.number 0, Value.number 0])

/-- Sample run, step 7: the driver thread of "/c" passes its gate. -/
def run_c_leaves : Option (Int × State) :=
  run_a_completes.bind (fun s => bindings_leave s 0)

/-- Sample run, step 8: the driver thread of "/c" raises its next GETATTR
request and `bindings_dispatch` calls the handler again. -/
def run_c_second : Option (State × List Event) :=
  run_c_leaves.bind (fun r =>
    bindings_dispatch (bindings_enter r.2 0 {} (fuse_request.getattr "/z" {})) 0)

/-! ## Theorems: slot table -/

theorem find_range_none (p : Nat → Bool) (n : Nat) :
    (List.range n).find? p = none ↔ ∀ j, j < n → p j = false := by
  rw [List.find?_eq_none]
  constructor
  · intro h j hj
    have := h j (List.mem_range.mpr hj)
    simpa using this
  · intro h x hx
    have := h x (List.mem_range.mp hx)
    simp [this]

theorem find_range_some (p : Nat → Bool) (n i : Nat)
    (h : (List.range n).find? p = some i) :
    i < n ∧ p i = true ∧ ∀ j, j < i → p j = false := by
  induction n with
  | zero => simp at h
  | succ n ih =>
    rw [List.range_succ, List.find?_append] at h
    cases hf : (List.range n).find? p with
    | some k =>
      rw [hf] at h
      simp at h
      subst h
      obtain ⟨h1, h2, h3⟩ := ih hf
      exact ⟨by omega, h2, h3⟩
    | none =>
      rw [hf] at h
      simp at h
      obtain ⟨hp, hi⟩ := h
      subst hi
      exact ⟨by omega, hp, (find_range_none p n).mp hf⟩

theorem bindings_alloc_cases (s : State) :
    (∃ i : Nat, i < s.bindings_mounted_count ∧ s.bindings_mounted i = none ∧
        (∀ j, j < i → s.bindings_mounted j ≠ none) ∧
        bindings_alloc s = ((i : Int),
          { s with
            bindings_mounted :=
              Function.update s.bindings_mounted i (some { index := (i : Int) }) })) ∨
    ((∀ j, j < s.bindings_mounted_count → s.bindings_mounted j ≠ none) ∧
        s.bindings_mounted_count < 1024 ∧
        bindings_alloc s = ((s.bindings_mounted_count : Int),
          { s with
            bindings_mounted :=
              Function.update s.bindings_mounted s.bindings_mounted_count
                (some { index := (s.bindings_mounted_count : Int) })
            bindings_mounted_count := s.bindings_mounted_count + 1 })) ∨
    ((∀ j, j < s.bindings_mounted_count → s.bindings_mounted j ≠ none) ∧
        1024 ≤ s.bindings_mounted_count ∧ bindings_alloc s = (-1, s)) := by
  cases hf : (List.range s.bindings_mounted_count).find?
      (fun i => (s.bindings_mounted i).isNone) with
  | some i =>
    left
    obtain ⟨h1, h2, h3⟩ := find_range_some _ _ _ hf
    refine ⟨i, h1, by simpa using h2, ?_, ?_⟩
    · intro j hj hn
      have := h3 j hj
      simp [hn] at this
    · have hi : ¬ ((i : Int) = -1) := by omega
      simp [bindings_alloc, hf, hi]
  | none =>
    right
    have hall : ∀ j, j < s.bindings_mounted_count → s.bindings_mounted j ≠ none := by
      intro j hj hn
      have := (find_range_none _ _).mp hf j hj
      simp [hn] at this
    by_cases hc : s.bindings_mounted_count < 1024
    · left
      have hi : ¬ ((s.bindings_mounted_count : Int) = -1) := by omega
      refine ⟨hall, hc, ?_⟩
      simp [bindings_alloc, hf, hc, hi]
    · right
      refine ⟨hall, by omega, ?_⟩
      simp [bindings_alloc, hf, hc]

theorem shrink_count_le (m : Nat → Option bindings_t) (n : Nat) :
    shrink_count m n ≤ n := by
  induction n with
  | zero => simp [shrink_count]
  | succ n ih =>
    unfold shrink_count
    split
    · omega
    · omega

theorem shrink_count_above (m : Nat → Option bindings_t) (n j : Nat)
    (h1 : shrink_count m n ≤ j) (h2 : j < n) : m j = none := by
  induction n with
  | zero => omega
  | succ n ih =>
    unfold shrink_count at h1
    split at h1
    · rename_i hn
      by_cases hj : j = n
      · subst hj
        simpa using hn
      · exact ih h1 (by omega)
    · omega

theorem shrink_count_top (m : Nat → Option bindings_t) (n : Nat)
    (h : 0 < shrink_count m n) : (m (shrink_count m n - 1)).isSome = true := by
  induction n with
  | zero => simp [shrink_count] at h
  | succ n ih =>
    unfold shrink_count at h ⊢
    split
    · rename_i hn
      simp only [hn, if_true] at h
      exact ih h
    · rename_i hn
      simpa [Option.isNone_iff_eq_none, Option.isSome_iff_ne_none] using hn

theorem wellFormed_empty : WellFormed State.empty := by
  constructor
  · simp [State.empty]
  · intro i _
    rfl

theorem wellFormed_alloc (s : State) (h : WellFormed s) :
    WellFormed (bindings_alloc s).2 := by
  obtain ⟨hc, hz⟩ := h
  rcases bindings_alloc_cases s with ⟨i, hi, _, _, he⟩ | ⟨_, hlt, he⟩ | ⟨_, _, he⟩
  · rw [he]
    refine ⟨hc, ?_⟩
    intro k hk
    have hne : k ≠ i := by
      simp only at hk
      omega
    simp only [Function.update_noteq hne]
    exact hz k hk
  · rw [he]
    refine ⟨by simp only; omega, ?_⟩
    intro k hk
    simp only at hk
    have hne : k ≠ s.bindings_mounted_count := by omega
    simp only [Function.update_noteq hne]
    exact hz k (by omega)
  · rw [he]
    exact ⟨hc, hz⟩

theorem wellFormed_free (s : State) (b : bindings_t) (h : WellFormed s) :
    WellFormed (bindings_free s b) := by
  obtain ⟨hc, hz⟩ := h
  constructor
  · have := shrink_count_le (Function.update s.bindings_mounted b.index.toNat none)
      s.bindings_mounted_count
    simp only [bindings_free]
    omega
  · intro k hk
    simp only [bindings_free] at hk ⊢
    by_cases hlt : k < s.bindings_mounted_count
    · exact shrink_count_above _ _ _ hk hlt
    · by_cases hki : k = b.index.toNat
      · subst hki
        simp
      · rw [Function.update_noteq hki]
        exact hz k (by omega)

theorem wellFormed_mount (s : State) (info : List Value) (h : WellFormed s) :
    WellFormed (Mount s info).2.1 := by
  have ha := wellFormed_alloc s h
  unfold Mount
  by_cases hs : (!(arg info 0).IsString) = true
  · simp only [hs, if_true]
    exact h
  · simp only [hs]
    by_cases hi : (bindings_alloc s).1 = -1
    · simp only [hi, if_true]
      exact ha
    · simp only [hi, if_false]
      refine ⟨ha.1, ?_⟩
      intro k hk
      have hk2 : (bindings_alloc s).2.bindings_mounted_count ≤ k := hk
      show Function.update (bindings_alloc s).2.bindings_mounted (bindings_alloc s).1.toNat
        _ k = none
      by_cases hki : k = (bindings_alloc s).1.toNat
      · subst hki
        simp [ha.2 _ hk2]
      · rw [Function.update_noteq hki]
        exact ha.2 k hk2

theorem reachable_wellFormed (s : State) (h : Reachable s) : WellFormed s := by
  induction h with
  | empty => exact wellFormed_empty
  | alloc s _ ih => exact wellFormed_alloc s ih
  | mount s info _ ih => exact wellFormed_mount s info ih
  | free s p b _ _ ih => exact wellFormed_free s b ih

theorem fill_spec (n : Nat) (hn : n ≤ 1024) :
    (fill n).bindings_mounted_count = n ∧
      ∀ i, ((fill n).bindings_mounted i).isSome = true ↔ i < n := by
  induction n with
  | zero =>
    refine ⟨rfl, ?_⟩
    intro i
    simp [fill, State.empty]
  | succ n ih =>
    obtain ⟨hc, hs⟩ := ih (by omega)
    rcases bindings_alloc_cases (fill n) with ⟨i, hi, hnone, _, _⟩ | ⟨_, _, he⟩ | ⟨_, hge, _⟩
    · have := (hs i).mpr (by omega)
      simp [hnone] at this
    · simp only [fill]
      rw [he, hc]
      refine ⟨rfl, ?_⟩
      intro i
      show (Function.update (fill n).bindings_mounted n _ i).isSome = true ↔ i < n + 1
      by_cases hin : i = n
      · subst hin
        simp
      · rw [Function.update_noteq hin, hs i]
        omega
    · omega

theorem reachable_fill (n : Nat) : Reachable (fill n) := by
  induction n with
  | zero => exact Reachable.empty
  | succ n ih => exact Reachable.alloc _ ih

/-- C1 (evaluation at the failing input): `bindings_alloc` stores the slot in
`index`, but the `memset` in `Mount` resets it: after two mounts the entry at
slot 1 has stored index 0, the same as the entry at slot 0, and freeing the
entry of slot 1 clears slot 0 and leaves slot 1 occupied. -/
theorem C1_mount_resets_index :
    ((bindings_alloc one_mount).2.bindings_mounted 1).map (fun b => b.index) = some 1 ∧
    (two_mounts.bindings_mounted 0).map (fun b => b.index) = some 0 ∧
    (two_mounts.bindings_mounted 1).map (fun b => b.index) = some 0 ∧
    (two_mounts.bindings_mounted 1).map (fun b => b.mnt) = some "/b" ∧
    (∀ b, two_mounts.bindings_mounted 1 = some b →
      ((bindings_free two_mounts b).bindings_mounted 0).isNone = true ∧
      ((bindings_free two_mounts b).bindings_mounted 1).isSome = true) := by
  refine ⟨by decide, by decide, by decide, by decide, ?_⟩
  intro b hb
  have hi : b.index = 0 := by
    have h : (two_mounts.bindings_mounted 1).map (fun b => b.index) = some 0 := by decide
    rw [hb] at h
    simpa using h
  have h1 : (two_mounts.bindings_mounted 1).isSome = true := by decide
  simp [bindings_free, hi, h1]

/-- C2: in every reachable table state a successful `bindings_alloc` returns an
index below 1024 whose slot was empty before the call while every lower slot
was occupied (the lowest free index), and the slot then holds the new entry. -/
theorem C2_alloc_lowest_free (s : State) (hr : Reachable s)
    (hok : (bindings_alloc s).1 ≠ -1) :
    ∃ i : Nat, (bindings_alloc s).1 = (i : Int) ∧ i < 1024 ∧
      s.bindings_mounted i = none ∧
      (∀ j, j < i → (s.bindings_mounted j).isSome = true) ∧
      (bindings_alloc s).2.bindings_mounted i = some { index := (i : Int) } := by
  obtain ⟨hc, hz⟩ := reachable_wellFormed s hr
  rcases bindings_alloc_cases s with ⟨i, hi, hnone, hlow, he⟩ | ⟨hlow, hlt, he⟩ | ⟨_, _, he⟩
  · refine ⟨i, by rw [he], by omega, hnone, ?_, by rw [he]; simp⟩
    intro j hj
    exact Option.isSome_iff_ne_none.mpr (hlow j hj)
  · refine ⟨s.bindings_mounted_count, by rw [he], hlt, hz _ (le_refl _), ?_, by rw [he]; simp⟩
    intro j hj
    exact Option.isSome_iff_ne_none.mpr (hlow j hj)
  · rw [he] at hok
    exact absurd rfl hok

theorem C2_alloc_lowest_free_witness :
    ∃ i : Nat, (bindings_alloc one_mount).1 = (i : Int) ∧ i < 1024 ∧
      one_mount.bindings_mounted i = none ∧
      (∀ j, j < i → (one_mount.bindings_mounted j).isSome = true) ∧
      (bindings_alloc one_mount).2.bindings_mounted i = some { index := (i : Int) } :=
  C2_alloc_lowest_free one_mount (Reachable.mount _ _ Reachable.empty) (by decide)

theorem alloc_fails_of_wellFormed (s : State) (hw : WellFormed s) :
    ((bindings_alloc s).1 = -1 ↔ ∀ i, i < 1024 → (s.bindings_mounted i).isSome = true) ∧
      ((bindings_alloc s).1 = -1 → (bindings_alloc s).2 = s) := by
  obtain ⟨hc, hz⟩ := hw
  rcases bindings_alloc_cases s with ⟨i, hi, hnone, _, he⟩ | ⟨_, hlt, he⟩ | ⟨hlow, hge, he⟩
  · rw [he]
    refine ⟨⟨fun h => absurd h (by simp only; omega), fun h => ?_⟩,
      fun h => absurd h (by simp only; omega)⟩
    have := h i (by omega)
    simp [hnone] at this
  · rw [he]
    refine ⟨⟨fun h => absurd h (by simp only; omega), fun h => ?_⟩,
      fun h => absurd h (by simp only; omega)⟩
    have := h s.bindings_mounted_count hlt
    simp [hz _ (le_refl _)] at this
  · rw [he]
    refine ⟨⟨fun _ i hi => ?_, fun _ => rfl⟩, fun _ => rfl⟩
    exact Option.isSome_iff_ne_none.mpr (hlow i (by omega))

/-- C3: in every reachable table state `bindings_alloc` returns -1 exactly when
all 1024 slots are occupied, and a failing call leaves the state (slot table
and high-water mark) unchanged. -/
theorem C3_alloc_fails_iff_full (s : State) (hr : Reachable s) :
    ((bindings_alloc s).1 = -1 ↔ ∀ i, i < 1024 → (s.bindings_mounted i).isSome = true) ∧
      ((bindings_alloc s).1 = -1 → (bindings_alloc s).2 = s) :=
  alloc_fails_of_wellFormed s (reachable_wellFormed s hr)

theorem C3_alloc_fails_iff_full_witness :
    ((bindings_alloc (fill 1024)).1 = -1 ↔
        ∀ i, i < 1024 → ((fill 1024).bindings_mounted i).isSome = true) ∧
      ((bindings_alloc (fill 1024)).1 = -1 → (bindings_alloc (fill 1024)).2 = fill 1024) :=
  C3_alloc_fails_iff_full (fill 1024) (reachable_fill 1024)

/-- C4: for every table state and every entry `b` stored at slot `b.index`
(position `p`), `bindings_free` empties that slot, leaves every other slot as
it was, and lowers the mark to one past the highest slot below the old mark
that is still occupied (to 0 when there is none). -/
theorem C4_free_clears_and_shrinks (s : State) (b : bindings_t) (p : Nat)
    (hidx : b.index = (p : Int)) (hlive : s.bindings_mounted p = some b) :
    (s.bindings_mounted p).isSome = true ∧
    (bindings_free s b).bindings_mounted p = none ∧
    (∀ j, j ≠ p → (bindings_free s b).bindings_mounted j = s.bindings_mounted j) ∧
    (bindings_free s b).bindings_mounted_count ≤ s.bindings_mounted_count ∧
    (∀ j, (bindings_free s b).bindings_mounted_count ≤ j → j < s.bindings_mounted_count →
      (bindings_free s b).bindings_mounted j = none) ∧
    (0 < (bindings_free s b).bindings_mounted_count →
      ((bindings_free s b).bindings_mounted
        ((bindings_free s b).bindings_mounted_count - 1)).isSome = true) ∧
    ((∀ j, j < s.bindings_mounted_count → j ≠ p → s.bindings_mounted j = none) →
      (bindings_free s b).bindings_mounted_count = 0) := by
  have hp : b.index.toNat = p := by omega
  refine ⟨by simp [hlive], by simp [bindings_free, hp], ?_, shrink_count_le _ _, ?_, ?_, ?_⟩
  · intro j hj
    simp [bindings_free, hp, Function.update_noteq hj]
  · intro j h1 h2
    exact shrink_count_above _ _ _ h1 h2
  · intro h
    exact shrink_count_top _ _ h
  · intro hnone
    by_contra hne
    have hpos : 0 < (bindings_free s b).bindings_mounted_count := Nat.pos_of_ne_zero hne
    have htop := shrink_count_top _ _ hpos
    have hle := shrink_count_le (Function.update s.bindings_mounted b.index.toNat none)
      s.bindings_mounted_count
    change ((Function.update s.bindings_mounted b.index.toNat none)
      (shrink_count (Function.update s.bindings_mounted b.index.toNat none)
        s.bindings_mounted_count - 1)).isSome = true at htop
    change 0 < shrink_count (Function.update s.bindings_mounted b.index.toNat none)
        s.bindings_mounted_count at hpos
    rw [hp] at htop hpos hle
    by_cases hk : shrink_count (Function.update s.bindings_mounted p none)
        s.bindings_mounted_count - 1 = p
    · rw [hk] at htop
      simp at htop
    · rw [Function.update_noteq hk, hnone _ (by omega) hk] at htop
      simp at htop

theorem C4_free_clears_and_shrinks_witness :
    (one_mount.bindings_mounted 0).isSome = true ∧
    (bindings_free one_mount (mount_entry 0 "/a" (Value.object []))).bindings_mounted 0
      = none ∧
    (∀ j, j ≠ 0 →
      (bindings_free one_mount (mount_entry 0 "/a" (Value.object []))).bindings_mounted j
        = one_mount.bindings_mounted j) ∧
    (bindings_free one_mount (mount_entry 0 "/a" (Value.object []))).bindings_mounted_count
      ≤ one_mount.bindings_mounted_count ∧
    (∀ j,
      (bindings_free one_mount (mount_entry 0 "/a" (Value.object []))).bindings_mounted_count
        ≤ j →
      j < one_mount.bindings_mounted_count →
      (bindings_free one_mount (mount_entry 0 "/a" (Value.object []))).bindings_mounted j
        = none) ∧
    (0 < (bindings_free one_mount
        (mount_entry 0 "/a" (Value.object []))).bindings_mounted_count →
      ((bindings_free one_mount (mount_entry 0 "/a" (Value.object []))).bindings_mounted
        ((bindings_free one_mount
          (mount_entry 0 "/a" (Value.object []))).bindings_mounted_count - 1)).isSome
        = true) ∧
    ((∀ j, j < one_mount.bindings_mounted_count → j ≠ 0 →
        one_mount.bindings_mounted j = none) →
      (bindings_free one_mount
        (mount_entry 0 "/a" (Value.object []))).bindings_mounted_count = 0) :=
  C4_free_clears_and_shrinks one_mount (mount_entry 0 "/a" (Value.object [])) 0 rfl rfl

/-- C5: `Mount` with a path that is not a string, and `Mount` on a reachable
table whose 1024 slots are all occupied, throw their error, create no driver
thread (no event at all) and leave the whole state as it was. -/
theorem C5_mount_fails_fast (s : State) (info : List Value)
    (h : (arg info 0).IsString = false ∨
      (Reachable s ∧ ∀ i, i < 1024 → (s.bindings_mounted i).isSome = true)) :
    (Mount s info).1 =
        some (if (arg info 0).IsString = false then "mnt must be a string"
          else "You cannot mount more than 1024 filesystem in one process") ∧
      (Mount s info).2.1 = s ∧ (Mount s info).2.2 = [] := by
  by_cases hs : (arg info 0).IsString = false
  · simp [Mount, hs]
  · rcases h with h | ⟨hr, hfull⟩
    · exact absurd h hs
    · have h3 := alloc_fails_of_wellFormed s (reachable_wellFormed s hr)
      have hfail : (bindings_alloc s).1 = -1 := h3.1.mpr hfull
      have hsame : (bindings_alloc s).2 = s := h3.2 hfail
      simp [Mount, hs, hfail, hsame]

theorem C5_mount_fails_fast_witness :
    (Mount (fill 1024) [Value.string "/mnt", Value.object []]).1 =
        some (if (arg [Value.string "/mnt", Value.object []] 0).IsString = false then
            "mnt must be a string"
          else "You cannot mount more than 1024 filesystem in one process") ∧
      (Mount (fill 1024) [Value.string "/mnt", Value.object []]).2.1 = fill 1024 ∧
      (Mount (fill 1024) [Value.string "/mnt", Value.object []]).2.2 = [] :=
  C5_mount_fails_fast (fill 1024) [Value.string "/mnt", Value.object []]
    (Or.inr ⟨reachable_fill 1024, fun i hi => ((fill_spec 1024 (le_refl _)).2 i).mpr hi⟩)

/-! ## Theorems: completion callback and dispatcher -/

theorem bindings_set_dirs_frame (b : bindings_t) (dirs : List String) :
    (bindings_set_dirs b dirs).result = b.result ∧
      (bindings_set_dirs b dirs).semaphore = b.semaphore := by
  unfold bindings_set_dirs
  split <;> exact ⟨rfl, rfl⟩

theorem apply_payload_frame (b : bindings_t) (info : List Value) :
    (apply_payload b info).result = b.result ∧
      (apply_payload b info).semaphore = b.semaphore := by
  unfold apply_payload
  split <;> (repeat' split) <;>
    first
      | exact ⟨rfl, rfl⟩
      | exact bindings_set_dirs_frame b _

theorem arg_number_length (info : List Value) (i : Nat) (c : Int)
    (h : arg info i = Value.number c) : info.length > i := by
  by_contra hlen
  have hnone : info[i]? = none := by
    rw [List.getElem?_eq_none_iff]
    omega
  simp [arg, hnone] at h

theorem int_of_uint32_eq_zero (u : Nat) (hu : u < 4294967296) :
    int_of_uint32 u = 0 ↔ u = 0 := by
  unfold int_of_uint32
  split <;> omega

theorem int_of_uint32_roundtrip (c : Int) (h1 : -2147483648 ≤ c) (h2 : c < 2147483648) :
    int_of_uint32 (c % 4294967296).toNat = c := by
  unfold int_of_uint32
  split <;> omega

theorem opCallback_entry_nonzero (b : bindings_t) (info : List Value) (c : Int)
    (hcode : arg info 1 = Value.number c) (hmod : c % 4294967296 ≠ 0) :
    OpCallback_entry b info =
      { b with
        result := int_of_uint32 (c % 4294967296).toNat
        semaphore := b.semaphore + 1 } ∧
      int_of_uint32 (c % 4294967296).toNat ≠ 0 := by
  have hlen := arg_number_length info 1 c hcode
  have hlt : (c % 4294967296).toNat < 4294967296 := by omega
  have hnz : int_of_uint32 (c % 4294967296).toNat ≠ 0 := by
    rw [Ne, int_of_uint32_eq_zero _ hlt]
    omega
  refine ⟨?_, hnz⟩
  simp [OpCallback_entry, hcode, hlen, Value.IsNumber, Value.Uint32Value, Value.NumberValue,
    hnz, semaphore_signal]

theorem opCallback_entry_result (b : bindings_t) (info : List Value) (c : Int)
    (hcode : arg info 1 = Value.number c) :
    (OpCallback_entry b info).result = int_of_uint32 (c % 4294967296).toNat ∧
      (OpCallback_entry b info).semaphore = b.semaphore + 1 := by
  have hlen := arg_number_length info 1 c hcode
  simp only [OpCallback_entry, hcode, hlen, Value.IsNumber, Value.Uint32Value,
    Value.NumberValue, semaphore_signal, and_self, if_true]
  split
  · exact ⟨(apply_payload_frame _ info).1, by rw [(apply_payload_frame _ info).2]⟩
  · exact ⟨rfl, rfl⟩

theorem opCallback_some (s : State) (info : List Value) (b : bindings_t)
    (hslot : s.bindings_mounted (arg info 0).Uint32Value = some b) :
    OpCallback s info =
      some { s with
        bindings_mounted :=
          Function.update s.bindings_mounted (arg info 0).Uint32Value
            (some (OpCallback_entry b info))
        bindings_current := none } := by
  simp only [OpCallback, hslot]

/-- C6 (counterexample): the result code -4294967296 is negative, yet its
unsigned 32-bit conversion is 0, so a GETATTR completion with that code applies
the payload and overwrites the size field of the attribute structure. -/
theorem C6_negative_code_can_apply_payload :
    arg [Value.number 0, Value.number (-4294967296),
        Value.object [("size", Value.number 5)]] 1 = Value.number (-4294967296) ∧
    (-4294967296 : Int) < 0 ∧
    getattr_request.data = Data.stat_buf {} ∧
    (OpCallback_entry getattr_request
      [Value.number 0, Value.number (-4294967296),
        Value.object [("size", Value.number 5)]]).data = Data.stat_buf { st_size := 5 } ∧
    (OpCallback_entry getattr_request
      [Value.number 0, Value.number (-4294967296),
        Value.object [("size", Value.number 5)]]).data ≠ getattr_request.data := by
  refine ⟨rfl, by decide, rfl, by decide, by decide⟩

/-- C6 (amended): for every operation kind and every payload, a completion
callback invoked with a negative integer result code that is not a multiple of
2^32 (so every negative code of the signed 32-bit range) applies no payload:
the entry is changed only in its result and its gate count, so the kernel
memory behind `data` (attributes, filesystem statistics, readlink buffer,
names fed to the fill routine) and the file-handle slot keep their contents,
and every other slot is untouched. -/
theorem C6_negative_code_no_payload (s : State) (info : List Value) (b : bindings_t)
    (c : Int) (hslot : s.bindings_mounted (arg info 0).Uint32Value = some b)
    (hcode : arg info 1 = Value.number c) (hneg : c < 0)
    (hmod : c % 4294967296 ≠ 0 ∨ -2147483648 ≤ c) :
    ∃ s1 b1, OpCallback s info = some s1 ∧
      s1.bindings_mounted (arg info 0).Uint32Value = some b1 ∧
      b1 = { b with
        result := int_of_uint32 (c % 4294967296).toNat
        semaphore := b.semaphore + 1 } ∧
      b1.result ≠ 0 ∧ b1.data = b.data ∧ b1.info = b.info ∧
      (∀ j, j ≠ (arg info 0).Uint32Value →
        s1.bindings_mounted j = s.bindings_mounted j) := by
  have hm : c % 4294967296 ≠ 0 := by omega
  obtain ⟨he, hnz⟩ := opCallback_entry_nonzero b info c hcode hm
  refine ⟨_, OpCallback_entry b info, opCallback_some s info b hslot, ?_, he, ?_, ?_, ?_, ?_⟩
  · simp
  · rw [he]
    exact hnz
  · rw [he]
  · rw [he]
  · intro j hj
    simp [Function.update_noteq hj]

theorem C6_negative_code_no_payload_witness :
    ∃ s1 b1,
      OpCallback
        { bindings_mounted := fun i => if i = 0 then some getattr_request else none,
          bindings_mounted_count := 1 }
        [Value.number 0, Value.number (-2), Value.object [("size", Value.number 5)]]
        = some s1 ∧
      s1.bindings_mounted
        (arg [Value.number 0, Value.number (-2),
          Value.object [("size", Value.number 5)]] 0).Uint32Value = some b1 ∧
      b1 = { getattr_request with
        result := int_of_uint32 ((-2 : Int) % 4294967296).toNat
        semaphore := getattr_request.semaphore + 1 } ∧
      b1.result ≠ 0 ∧ b1.data = getattr_request.data ∧ b1.info = getattr_request.info ∧
      (∀ j, j ≠ (arg [Value.number 0, Value.number (-2),
          Value.object [("size", Value.number 5)]] 0).Uint32Value →
        s1.bindings_mounted j =
          ({ bindings_mounted := fun i => if i = 0 then some getattr_request else none,
             bindings_mounted_count := 1 } : State).bindings_mounted j) :=
  C6_negative_code_no_payload
    { bindings_mounted := fun i => if i = 0 then some getattr_request else none,
      bindings_mounted_count := 1 }
    [Value.number 0, Value.number (-2), Value.object [("size", Value.number 5)]]
    getattr_request (-2) rfl rfl (by decide) (Or.inl (by decide))

/-- C7: for every result code `c` of the signed 32-bit range that a handler
passes to the completion callback, `OpCallback` stores exactly `c` in the
entry's result field and opens the gate, so the waiting `bindings_call`
returns `c`. -/
theorem C7_result_code_verbatim (s : State) (info : List Value) (b : bindings_t)
    (c : Int) (hslot : s.bindings_mounted (arg info 0).Uint32Value = some b)
    (hcode : arg info 1 = Value.number c)
    (hlo : -2147483648 ≤ c) (hhi : c < 2147483648) :
    ∃ s1 b1, OpCallback s info = some s1 ∧
      s1.bindings_mounted (arg info 0).Uint32Value = some b1 ∧
      b1.result = c ∧ b1.semaphore = b.semaphore + 1 ∧
      ∃ b2, bindings_call_return b1 = some (c, b2) ∧ b2.semaphore = b.semaphore := by
  obtain ⟨hres, hsem⟩ := opCallback_entry_result b info c hcode
  rw [int_of_uint32_roundtrip c hlo hhi] at hres
  refine ⟨_, OpCallback_entry b info, opCallback_some s info b hslot, by simp, hres, hsem, ?_⟩
  have hpos : 0 < (OpCallback_entry b info).semaphore := by omega
  refine ⟨{ OpCallback_entry b info with
    semaphore := (OpCallback_entry b info).semaphore - 1 }, ?_, ?_⟩
  · simp [bindings_call_return, semaphore_wait, hpos, hres]
  · simp only [hsem]
    omega

theorem C7_result_code_verbatim_witness :
    ∃ s1 b1,
      OpCallback
        { bindings_mounted := fun i => if i = 0 then some getattr_request else none,
          bindings_mounted_count := 1 }
        [Value.number 0, Value.number (-2)] = some s1 ∧
      s1.bindings_mounted (arg [Value.number 0, Value.number (-2)] 0).Uint32Value
        = some b1 ∧
      b1.result = -2 ∧ b1.semaphore = getattr_request.semaphore + 1 ∧
      ∃ b2, bindings_call_return b1 = some (-2, b2) ∧
        b2.semaphore = getattr_request.semaphore :=
  C7_result_code_verbatim
    { bindings_mounted := fun i => if i = 0 then some getattr_request else none,
      bindings_mounted_count := 1 }
    [Value.number 0, Value.number (-2)] getattr_request (-2) rfl rfl
    (by decide) (by decide)

theorem dispatch_switch_absent (b : bindings_t) (callback : Value)
    (h : handler_of b b.op = none) :
    dispatch_switch b callback = (semaphore_signal b, []) := by
  unfold dispatch_switch
  cases hop : b.op <;>
    (rw [hop] at h
     simp only [handler_of] at h
     simp only [h, bindings_call_op]
     try (split <;> rfl))

theorem dispatch_entry_absent (b : bindings_t) (h : handler_of b b.op = none) :
    bindings_dispatch_entry b =
      ({ b with result := -1, semaphore := b.semaphore + 1 }, []) := by
  exact dispatch_switch_absent { b with result := -1 } (b.callback.getD Value.undefined) h

theorem bindings_dispatch_some (s : State) (handle : Nat) (b : bindings_t)
    (hslot : s.bindings_mounted handle = some b) :
    bindings_dispatch s handle =
      some ({ s with
          bindings_mounted :=
            Function.update s.bindings_mounted handle (some (bindings_dispatch_entry b).1)
          bindings_current := some handle },
        (bindings_dispatch_entry b).2) := by
  simp only [bindings_dispatch, hslot]

/-- C8 (counterexample): an ERROR request on an entry without handlers is
dispatched on the absent-handler path, and the waiting call then returns -1,
not 0. -/
theorem C8_absent_handler_result_is_not_success :
    handler_of error_request error_request.op = none ∧
    (bindings_dispatch_entry error_request).2 = [] ∧
    (bindings_dispatch_entry error_request).1.result = -1 ∧
    (bindings_call_return (bindings_dispatch_entry error_request).1).map Prod.fst
      = some (-1) ∧
    (bindings_call_return (bindings_dispatch_entry error_request).1).map Prod.fst
      ≠ some 0 := by
  refine ⟨rfl, rfl, by decide, by decide, by decide⟩

/-- C8 (amended): for every mount entry and every operation kind for which no
handler is registered, `bindings_dispatch` calls no handler (no event), raises
the gate count by exactly one, and the request completes with the result code
-1 that `bindings_dispatch` stores before it selects the handler. -/
theorem C8_absent_handler_default (s : State) (handle : Nat) (b : bindings_t)
    (hslot : s.bindings_mounted handle = some b)
    (hnone : handler_of b b.op = none) :
    ∃ s1 b1, bindings_dispatch s handle = some (s1, []) ∧
      s1.bindings_mounted handle = some b1 ∧
      b1 = { b with result := -1, semaphore := b.semaphore + 1 } ∧
      (∀ j, j ≠ handle → s1.bindings_mounted j = s.bindings_mounted j) ∧
      ∃ b2, bindings_call_return b1 = some (-1, b2) ∧ b2.semaphore = b.semaphore := by
  have he := dispatch_entry_absent b hnone
  refine ⟨{ s with
      bindings_mounted :=
        Function.update s.bindings_mounted handle (some (bindings_dispatch_entry b).1)
      bindings_current := some handle },
    { b with result := -1, semaphore := b.semaphore + 1 }, ?_, ?_, rfl, ?_, ?_⟩
  · rw [bindings_dispatch_some s handle b hslot, he]
  · simp [he]
  · intro j hj
    simp [Function.update_noteq hj]
  · refine ⟨{ b with result := -1 }, ?_, rfl⟩
    simp [bindings_call_return, semaphore_wait]

theorem C8_absent_handler_default_witness :
    ∃ s1 b1,
      bindings_dispatch
        { bindings_mounted := fun i => if i = 0 then some error_request else none,
          bindings_mounted_count := 1 } 0 = some (s1, []) ∧
      s1.bindings_mounted 0 = some b1 ∧
      b1 = { error_request with result := -1, semaphore := error_request.semaphore + 1 } ∧
      (∀ j, j ≠ 0 → s1.bindings_mounted j =
        ({ bindings_mounted := fun i => if i = 0 then some error_request else none,
           bindings_mounted_count := 1 } : State).bindings_mounted j) ∧
      ∃ b2, bindings_call_return b1 = some (-1, b2) ∧
        b2.semaphore = error_request.semaphore :=
  C8_absent_handler_default
    { bindings_mounted := fun i => if i = 0 then some error_request else none,
      bindings_mounted_count := 1 } 0 error_request rfl rfl

theorem arg_defined_length (info : List Value) (i : Nat)
    (h : arg info i ≠ Value.undefined) : info.length > i := by
  by_contra hlen
  have hnone : info[i]? = none := by
    rw [List.getElem?_eq_none_iff]
    omega
  simp [arg, hnone] at h

theorem fill_dirs_stop (filler : fuse_fill_dir_t) (dirs : List String) :
    ∀ (fed : List String) (k : Nat) (name : String), dirs[k]? = some name →
      (∀ j nm, j < k → dirs[j]? = some nm → filler (fed ++ dirs.take j) nm = 0) →
      filler (fed ++ dirs.take k) name ≠ 0 →
      fill_dirs filler fed dirs = fed ++ dirs.take (k + 1) := by
  induction dirs with
  | nil =>
    intro fed k name hk
    simp at hk
  | cons d rest ih =>
    intro fed k name hk hbefore hstop
    cases k with
    | zero =>
      simp at hk
      subst hk
      simp at hstop
      simp [fill_dirs, hstop]
    | succ k =>
      have h0 : filler fed d = 0 := by
        have := hbefore 0 d (by omega) (by simp)
        simpa using this
      simp only [fill_dirs, h0, ne_eq, not_true_eq_false, if_false]
      have hk2 : rest[k]? = some name := by simpa using hk
      rw [ih (fed ++ [d]) k name hk2 ?_ ?_]
      · simp
      · intro j nm hj hnm
        have := hbefore (j + 1) nm (by omega) (by simpa using hnm)
        simpa using this
      · simpa using hstop

theorem fill_dirs_all (filler : fuse_fill_dir_t) (dirs : List String) :
    ∀ (fed : List String),
      (∀ j nm, dirs[j]? = some nm → filler (fed ++ dirs.take j) nm = 0) →
      fill_dirs filler fed dirs = fed ++ dirs := by
  induction dirs with
  | nil =>
    intro fed _
    simp [fill_dirs]
  | cons d rest ih =>
    intro fed hall
    have h0 : filler fed d = 0 := by
      have := hall 0 d (by simp)
      simpa using this
    simp only [fill_dirs, h0, ne_eq, not_true_eq_false, if_false]
    rw [ih (fed ++ [d]) ?_]
    · simp
    · intro j nm hnm
      have := hall (j + 1) nm (by simpa using hnm)
      simpa using this

/-- C10: a READDIR completion with result 0 and an array of names runs
`bindings_set_dirs`, which feeds the names to the fill routine in list order:
when the call on the name at position `k` is the first to report stop, the
names fed are exactly the first `k + 1` names; when no call reports stop, all
names are fed. -/
theorem C10_readdir_fill_is_first_stop_cut (b : bindings_t) (fed dirs : List String)
    (info : List Value) (hop : b.op = OP_READDIR) (hdata : b.data = Data.dir_buf fed)
    (hcode : arg info 1 = Value.number 0) (hpayload : arg info 2 = Value.array dirs) :
    (OpCallback_entry b info).data = (bindings_set_dirs b dirs).data ∧
    (∀ k name, dirs[k]? = some name →
      (∀ j nm, j < k → dirs[j]? = some nm → b.filler (fed ++ dirs.take j) nm = 0) →
      b.filler (fed ++ dirs.take k) name ≠ 0 →
      (bindings_set_dirs b dirs).data = Data.dir_buf (fed ++ dirs.take (k + 1))) ∧
    ((∀ j nm, dirs[j]? = some nm → b.filler (fed ++ dirs.take j) nm = 0) →
      (bindings_set_dirs b dirs).data = Data.dir_buf (fed ++ dirs)) := by
  have hset : (bindings_set_dirs b dirs).data =
      Data.dir_buf (fill_dirs b.filler fed dirs) := by
    simp [bindings_set_dirs, hdata]
  refine ⟨?_, ?_, ?_⟩
  · have h1 := arg_number_length info 1 0 hcode
    have h2 : info.length > 2 := arg_defined_length info 2 (by rw [hpayload]; simp)
    simp [OpCallback_entry, hcode, hpayload, h1, h2, Value.IsNumber, Value.Uint32Value,
      Value.NumberValue, int_of_uint32, apply_payload, hop, Value.IsArray, Value.items,
      bindings_set_dirs, hdata, semaphore_signal]
  · intro k name hk hbefore hstop
    rw [hset, fill_dirs_stop b.filler dirs fed k name hk hbefore hstop]
  · intro hall
    rw [hset, fill_dirs_all b.filler dirs fed hall]

theorem C10_readdir_fill_is_first_stop_cut_witness :
    (OpCallback_entry readdir_request
        [Value.number 0, Value.number 0, Value.array ["a", "b", "c"]]).data =
      (bindings_set_dirs readdir_request ["a", "b", "c"]).data ∧
    (∀ k name, ["a", "b", "c"][k]? = some name →
      (∀ j nm, j < k → ["a", "b", "c"][j]? = some nm →
        readdir_request.filler ([] ++ ["a", "b", "c"].take j) nm = 0) →
      readdir_request.filler ([] ++ ["a", "b", "c"].take k) name ≠ 0 →
      (bindings_set_dirs readdir_request ["a", "b", "c"]).data =
        Data.dir_buf ([] ++ ["a", "b", "c"].take (k + 1))) ∧
    ((∀ j nm, ["a", "b", "c"][j]? = some nm →
        readdir_request.filler ([] ++ ["a", "b", "c"].take j) nm = 0) →
      (bindings_set_dirs readdir_request ["a", "b", "c"]).data =
        Data.dir_buf ([] ++ ["a", "b", "c"])) ∧
    (bindings_set_dirs readdir_request ["a", "b", "c"]).data = Data.dir_buf ["a", "b"] :=
  ⟨(C10_readdir_fill_is_first_stop_cut readdir_request [] ["a", "b", "c"]
      [Value.number 0, Value.number 0, Value.array ["a", "b", "c"]] rfl rfl rfl rfl).1,
    (C10_readdir_fill_is_first_stop_cut readdir_request [] ["a", "b", "c"]
      [Value.number 0, Value.number 0, Value.array ["a", "b", "c"]] rfl rfl rfl rfl).2.1,
    (C10_readdir_fill_is_first_stop_cut readdir_request [] ["a", "b", "c"]
      [Value.number 0, Value.number 0, Value.array ["a", "b", "c"]] rfl rfl rfl rfl).2.2,
    by decide⟩

/-! ## Theorems: lookup and unmount -/

theorem find_mounted_some (s : State) (path : String) (p : Nat)
    (h : bindings_find_mounted s path = some p) :
    p < s.bindings_mounted_count ∧
      (∃ b, s.bindings_mounted p = some b ∧ b.gc = 0 ∧ b.mnt = path) ∧
      ∀ j b, j < p → s.bindings_mounted j = some b → ¬ (b.gc = 0 ∧ b.mnt = path) := by
  unfold bindings_find_mounted at h
  obtain ⟨h1, h2, h3⟩ := find_range_some _ _ _ h
  refine ⟨h1, ?_, ?_⟩
  · cases hb : s.bindings_mounted p with
    | none => simp [hb] at h2
    | some b =>
      simp only [hb] at h2
      exact ⟨b, rfl, by simpa using h2⟩
  · intro j b hj hb hm
    have := h3 j hj
    simp [hb, hm.1, hm.2] at this

theorem find_mounted_none (s : State) (path : String) :
    bindings_find_mounted s path = none ↔
      ∀ i b, i < s.bindings_mounted_count → s.bindings_mounted i = some b →
        ¬ (b.gc = 0 ∧ b.mnt = path) := by
  unfold bindings_find_mounted
  rw [find_range_none]
  constructor
  · intro h i b hi hb hm
    have := h i hi
    simp [hb, hm.1, hm.2] at this
  · intro h i hi
    cases hb : s.bindings_mounted i with
    | none => rfl
    | some b =>
      have := h i b hi hb
      simpa using this

/-- C19: `bindings_find_mounted` returns an entry exactly when some slot below
the mark holds an entry with clear garbage flag and the given mount path; the
entry returned is the one at the lowest such position, so an entry whose
garbage flag is set is never returned. -/
theorem C19_find_mounted_lowest_live_match (s : State) (path : String) :
    ((bindings_find_mounted s path).isSome = true ↔
      ∃ i b, i < s.bindings_mounted_count ∧ s.bindings_mounted i = some b ∧
        b.gc = 0 ∧ b.mnt = path) ∧
    (∀ p, bindings_find_mounted s path = some p →
      p < s.bindings_mounted_count ∧
      (∃ b, s.bindings_mounted p = some b ∧ b.gc = 0 ∧ b.mnt = path) ∧
      ∀ j b, j < p → s.bindings_mounted j = some b → ¬ (b.gc = 0 ∧ b.mnt = path)) := by
  refine ⟨⟨?_, ?_⟩, fun p hp => find_mounted_some s path p hp⟩
  · intro h
    obtain ⟨p, hp⟩ := Option.isSome_iff_exists.mp h
    obtain ⟨h1, ⟨b, hb, hm⟩, _⟩ := find_mounted_some s path p hp
    exact ⟨p, b, h1, hb, hm⟩
  · rintro ⟨i, b, hi, hb, hm⟩
    by_contra hn
    have hnone : bindings_find_mounted s path = none := by
      simpa using hn
    exact (find_mounted_none s path).mp hnone i b hi hb hm

theorem unmount_of_find_none (s : State) (path : String)
    (h : bindings_find_mounted s path = none) :
    bindings_unmount s path = (s, [Event.fusermount path]) := by
  simp only [bindings_unmount, h]

/-- C12 (counterexample): on the empty table the path "/x" matches no entry,
yet `bindings_unmount` still issues the forced unmount `fusermount("/x")` to
the kernel interface. -/
theorem C12_unmount_unknown_path_calls_fusermount :
    bindings_find_mounted State.empty "/x" = none ∧
    (bindings_unmount State.empty "/x").2 = [Event.fusermount "/x"] ∧
    (bindings_unmount State.empty "/x").2 ≠ [] := by
  refine ⟨by decide, rfl, ?_⟩
  intro h
  have h2 : (bindings_unmount State.empty "/x").2 = [Event.fusermount "/x"] := rfl
  rw [h2] at h
  exact List.cons_ne_nil _ _ h

/-- C12 (amended): for every table state and every path that matches no
non-garbage entry below the mark (unknown path, or only garbage entries),
`bindings_unmount` changes no slot and no entry and joins no thread; its only
effect is the forced unmount `fusermount(path)`, which it issues all the
same. -/
theorem C12_unmount_unmatched_path (s : State) (path : String)
    (h : ∀ i b, i < s.bindings_mounted_count → s.bindings_mounted i = some b →
      b.mnt = path → b.gc ≠ 0) :
    (bindings_unmount s path).1 = s ∧
      (bindings_unmount s path).2 = [Event.fusermount path] := by
  have hnone : bindings_find_mounted s path = none := by
    rw [find_mounted_none]
    intro i b hi hb hm
    exact h i b hi hb hm.2 hm.1
  rw [unmount_of_find_none s path hnone]
  exact ⟨rfl, rfl⟩

theorem C12_unmount_unmatched_path_witness :
    (bindings_unmount one_mount "/x").1 = one_mount ∧
      (bindings_unmount one_mount "/x").2 = [Event.fusermount "/x"] :=
  C12_unmount_unmatched_path one_mount "/x" (by
    intro i b hi hb hm
    have hc : one_mount.bindings_mounted_count = 1 := by decide
    have hi0 : i = 0 := by omega
    subst hi0
    have hb0 : one_mount.bindings_mounted 0 = some (mount_entry 0 "/a" (Value.object [])) := rfl
    rw [hb0] at hb
    cases hb
    exact absurd hm (by decide))

theorem unmount_of_find_some (s : State) (path : String) (p : Nat) (b : bindings_t)
    (h : bindings_find_mounted s path = some p) (hb : s.bindings_mounted p = some b) :
    bindings_unmount s path =
      ({ s with
          bindings_mounted :=
            Function.update s.bindings_mounted p (some { b with gc := 1 }) },
        [Event.fusermount path, Event.thread_join p]) := by
  simp only [bindings_unmount, h, hb, Option.map_some']

/-- C13 (counterexample): after two mounts on the same path "/a", the first
`bindings_unmount("/a")` marks the entry of slot 0 as garbage, but the lookup
of "/a" then finds the entry of slot 1, and the repeat `bindings_unmount("/a")`
joins the thread of that entry. -/
theorem C13_repeat_unmount_finds_second_entry :
    bindings_find_mounted same_path_mounts "/a" = some 0 ∧
    bindings_find_mounted (bindings_unmount same_path_mounts "/a").1 "/a" = some 1 ∧
    bindings_find_mounted (bindings_unmount same_path_mounts "/a").1 "/a" ≠ none ∧
    (bindings_unmount (bindings_unmount same_path_mounts "/a").1 "/a").2 =
      [Event.fusermount "/a", Event.thread_join 1] := by
  refine ⟨by decide, by decide, by decide, rfl⟩

/-- C13 (amended): for every table state and every path whose lookup finds the
entry of slot `p`, `bindings_unmount` sets the garbage flag of that entry and
joins its thread, after which the lookup of the path no longer returns slot
`p`; when no other slot below the mark holds a non-garbage entry with the same
path, the lookup then finds no entry and a repeat `bindings_unmount` changes
nothing and joins no thread. -/
theorem C13_unmount_marks_garbage (s : State) (path : String) (p : Nat)
    (hfind : bindings_find_mounted s path = some p) :
    ∃ b, s.bindings_mounted p = some b ∧ b.gc = 0 ∧ b.mnt = path ∧
      (bindings_unmount s path).1.bindings_mounted p = some { b with gc := 1 } ∧
      (∀ j, j ≠ p →
        (bindings_unmount s path).1.bindings_mounted j = s.bindings_mounted j) ∧
      (bindings_unmount s path).2 = [Event.fusermount path, Event.thread_join p] ∧
      bindings_find_mounted (bindings_unmount s path).1 path ≠ some p ∧
      ((∀ j c, j < s.bindings_mounted_count → j ≠ p → s.bindings_mounted j = some c →
          ¬ (c.gc = 0 ∧ c.mnt = path)) →
        bindings_find_mounted (bindings_unmount s path).1 path = none ∧
        bindings_unmount (bindings_unmount s path).1 path =
          ((bindings_unmount s path).1, [Event.fusermount path])) := by
  obtain ⟨_, ⟨b, hb, hgc, hmnt⟩, _⟩ := find_mounted_some s path p hfind
  have hu := unmount_of_find_some s path p b hfind hb
  refine ⟨b, hb, hgc, hmnt, ?_, ?_, ?_, ?_, ?_⟩
  · rw [hu]
    simp
  · intro j hj
    rw [hu]
    simp [Function.update_noteq hj]
  · rw [hu]
  · intro hagain
    obtain ⟨_, ⟨c, hc, hcgc, _⟩, _⟩ := find_mounted_some _ path p hagain
    rw [hu] at hc
    simp at hc
    rw [← hc] at hcgc
    simp at hcgc
  · intro huniq
    have hnone : bindings_find_mounted (bindings_unmount s path).1 path = none := by
      rw [find_mounted_none]
      intro i c hi hc hm
      rw [hu] at hi hc
      by_cases hip : i = p
      · subst hip
        simp at hc
        rw [← hc] at hm
        simp at hm
      · simp [Function.update_noteq hip] at hc
        exact huniq i c hi hip hc hm
    exact ⟨hnone, unmount_of_find_none _ path hnone⟩

theorem C13_unmount_marks_garbage_witness :
    ∃ b, one_mount.bindings_mounted 0 = some b ∧ b.gc = 0 ∧ b.mnt = "/a" ∧
      (bindings_unmount one_mount "/a").1.bindings_mounted 0 = some { b with gc := 1 } ∧
      (∀ j, j ≠ 0 →
        (bindings_unmount one_mount "/a").1.bindings_mounted j =
          one_mount.bindings_mounted j) ∧
      (bindings_unmount one_mount "/a").2 = [Event.fusermount "/a", Event.thread_join 0] ∧
      bindings_find_mounted (bindings_unmount one_mount "/a").1 "/a" ≠ some 0 ∧
      ((∀ j c, j < one_mount.bindings_mounted_count → j ≠ 0 →
          one_mount.bindings_mounted j = some c → ¬ (c.gc = 0 ∧ c.mnt = "/a")) →
        bindings_find_mounted (bindings_unmount one_mount "/a").1 "/a" = none ∧
        bindings_unmount (bindings_unmount one_mount "/a").1 "/a" =
          ((bindings_unmount one_mount "/a").1, [Event.fusermount "/a"])) :=
  C13_unmount_marks_garbage one_mount "/a" 0 (by decide)

/-! ## Theorems: handler invocation -/

theorem dispatch_entry_present (b : bindings_t) (fn : Callback)
    (h : handler_of b b.op = some fn) :
    bindings_dispatch_entry b =
      ({ b with result := -1 },
        [Event.call fn (called_argv (bindings_dispatch_entry b).2).length
          (called_argv (bindings_dispatch_entry b).2)]) := by
  cases hop : b.op <;>
    (rw [hop] at h
     simp only [handler_of] at h
     simp only [bindings_dispatch_entry, dispatch_switch, hop, h, bindings_call_op,
       called_argv, List.length_cons, List.length_nil]
     try (split <;> rfl))

theorem dispatch_argv_shape (b : bindings_t) (fn : Callback)
    (h : handler_of b b.op = some fn) :
    (called_argv (bindings_dispatch_entry b).2).getLast? =
        some (b.callback.getD Value.undefined) ∧
    ((b.op = OP_INIT ∨ b.op = OP_ERROR ∨ b.op = OP_DESTROY) →
      called_argv (bindings_dispatch_entry b).2 = [b.callback.getD Value.undefined]) ∧
    (¬ (b.op = OP_INIT ∨ b.op = OP_ERROR ∨ b.op = OP_DESTROY) →
      (called_argv (bindings_dispatch_entry b).2).head? = some (Value.string b.path)) ∧
    ((b.op = OP_READ ∨ b.op = OP_WRITE) →
      called_argv (bindings_dispatch_entry b).2 =
        [Value.string b.path, Value.number (b.info.fh : Int), Value.buffer b.data b.length,
          Value.number b.length, Value.number b.offset,
          b.callback.getD Value.undefined]) ∧
    ((b.op = OP_RENAME ∨ b.op = OP_LINK ∨ b.op = OP_SYMLINK) →
      ∀ dest, b.data = Data.char_buf dest →
        called_argv (bindings_dispatch_entry b).2 =
          [Value.string b.path, Value.string dest, b.callback.getD Value.undefined]) ∧
    (b.op = OP_UTIMENS →
      ∀ atime mtime, b.data = Data.timespec_pair atime mtime →
        called_argv (bindings_dispatch_entry b).2 =
          [Value.string b.path, bindings_get_date atime, bindings_get_date mtime,
            b.callback.getD Value.undefined]) ∧
    ((b.op = OP_FGETATTR ∨ b.op = OP_FTRUNCATE ∨ b.op = OP_WRITE ∨ b.op = OP_READ ∨
        b.op = OP_RELEASE ∨ b.op = OP_RELEASEDIR ∨ b.op = OP_FLUSH ∨ b.op = OP_FSYNC ∨
        b.op = OP_FSYNCDIR) →
      (called_argv (bindings_dispatch_entry b).2)[1]? =
        some (Value.number (b.info.fh : Int))) := by
  cases hop : b.op <;>
    (rw [hop] at h
     simp only [handler_of] at h
     simp only [bindings_dispatch_entry, dispatch_switch, hop, h, bindings_call_op,
       called_argv]
     first
       | (refine ⟨?_, ?_, ?_, ?_, ?_, ?_, ?_⟩ <;>
            first
              | (intro hd; simp at hd; done)
              | (intro _; rfl)
              | (intro _ dest hdata; simp only [hdata])
              | rfl
              | simp)
       | (cases hd : b.data <;> simp))

/-- C11 (counterexample): the handle 4294967296 is non-negative, fits a 64-bit
slot and is an exact handler-side number, yet an OPEN completion with result 0
and that payload stores 0 in the file-handle slot. -/
theorem C11_handle_above_32_bits_is_truncated :
    open_request.op = OP_OPEN ∧
    (0 : Int) ≤ 4294967296 ∧ (4294967296 : Int) < 18446744073709551616 ∧
    (OpCallback_entry open_request
      [Value.number 0, Value.number 0, Value.number 4294967296]).info.fh = 0 ∧
    ((OpCallback_entry open_request
      [Value.number 0, Value.number 0, Value.number 4294967296]).info.fh : Int)
        ≠ 4294967296 := by
  refine ⟨rfl, by decide, by decide, by decide, by decide⟩

/-- C11 (amended): for OPEN, OPENDIR and CREATE and every integer handle `h`, a
completion with result code 0 and payload `h` stores `h` modulo 2^32 in the
file-handle slot of the call (the open flags stay), so exactly `h` when
0 ≤ h < 2^32; and every later handle-bearing request carrying that file
information (FGETATTR, FTRUNCATE, WRITE, READ, RELEASE, RELEASEDIR, FLUSH,
FSYNC, FSYNCDIR) whose handler is registered is dispatched to that handler with
the stored value as its second argument, so with `h` itself when
0 ≤ h < 2^32. -/
theorem C11_handle_roundtrip_32_bits (b : bindings_t) (info : List Value) (h : Int)
    (hop : b.op = OP_OPEN ∨ b.op = OP_OPENDIR ∨ b.op = OP_CREATE)
    (hcode : arg info 1 = Value.number 0) (hpayload : arg info 2 = Value.number h) :
    ((OpCallback_entry b info).info.fh : Int) = h % 4294967296 ∧
    (OpCallback_entry b info).info.flags = b.info.flags ∧
    ((0 : Int) ≤ h → (h : Int) < 4294967296 →
      ((OpCallback_entry b info).info.fh : Int) = h) ∧
    (∀ (later : bindings_t) (fn : Callback),
      later.info = (OpCallback_entry b info).info →
      (later.op = OP_FGETATTR ∨ later.op = OP_FTRUNCATE ∨ later.op = OP_WRITE ∨
        later.op = OP_READ ∨ later.op = OP_RELEASE ∨ later.op = OP_RELEASEDIR ∨
        later.op = OP_FLUSH ∨ later.op = OP_FSYNC ∨ later.op = OP_FSYNCDIR) →
      handler_of later later.op = some fn →
      (bindings_dispatch_entry later).2 =
          [Event.call fn (called_argv (bindings_dispatch_entry later).2).length
            (called_argv (bindings_dispatch_entry later).2)] ∧
        (called_argv (bindings_dispatch_entry later).2)[1]? =
          some (Value.number (h % 4294967296)) ∧
        ((0 : Int) ≤ h → (h : Int) < 4294967296 →
          (called_argv (bindings_dispatch_entry later).2)[1]? = some (Value.number h))) := by
  have h1 := arg_number_length info 1 0 hcode
  have h2 := arg_number_length info 2 h hpayload
  have hfh : (OpCallback_entry b info).info =
      { b.info with fh := (h % 4294967296).toNat } := by
    rcases hop with hop | hop | hop <;>
      simp [OpCallback_entry, hcode, hpayload, h1, h2, Value.IsNumber, Value.Uint32Value,
        Value.NumberValue, int_of_uint32, apply_payload, hop, semaphore_signal]
  have hfhn : ((OpCallback_entry b info).info.fh : Int) = h % 4294967296 := by
    rw [hfh]
    simp only
    omega
  refine ⟨hfhn, ?_, ?_, ?_⟩
  · rw [hfh]
  · intro h0 h32
    rw [hfhn]
    omega
  · intro later fn hinfo hlater hfn
    have hd := dispatch_entry_present later fn hfn
    have hshape := (dispatch_argv_shape later fn hfn).2.2.2.2.2.2 hlater
    rw [hinfo, hfhn] at hshape
    refine ⟨congrArg Prod.snd hd, hshape, ?_⟩
    intro h0 h32
    have hm : h % 4294967296 = h := Int.emod_eq_of_lt h0 h32
    rw [hshape, hm]

theorem C11_handle_roundtrip_32_bits_witness :
    (
    ((OpCallback_entry open_request
        [Value.number 0, Value.number 0, Value.number 7]).info.fh : Int) = 7 % 4294967296 ∧
    (OpCallback_entry open_request
        [Value.number 0, Value.number 0, Value.number 7]).info.flags = open_request.info.flags ∧
    ((0 : Int) ≤ 7 → (7 : Int) < 4294967296 →
      ((OpCallback_entry open_request
        [Value.number 0, Value.number 0, Value.number 7]).info.fh : Int) = 7) ∧
    (∀ (later : bindings_t) (fn : Callback),
      later.info = (OpCallback_entry open_request
        [Value.number 0, Value.number 0, Value.number 7]).info →
      (later.op = OP_FGETATTR ∨ later.op = OP_FTRUNCATE ∨ later.op = OP_WRITE ∨
        later.op = OP_READ ∨ later.op = OP_RELEASE ∨ later.op = OP_RELEASEDIR ∨
        later.op = OP_FLUSH ∨ later.op = OP_FSYNC ∨ later.op = OP_FSYNCDIR) →
      handler_of later later.op = some fn →
      (bindings_dispatch_entry later).2 =
          [Event.call fn (called_argv (bindings_dispatch_entry later).2).length
            (called_argv (bindings_dispatch_entry later).2)] ∧
        (called_argv (bindings_dispatch_entry later).2)[1]? =
          some (Value.number (7 % 4294967296)) ∧
        ((0 : Int) ≤ 7 → (7 : Int) < 4294967296 →
          (called_argv (bindings_dispatch_entry later).2)[1]? = some (Value.number 7)))) ∧
    (
    ((OpCallback_entry open_request
        [Value.number 0, Value.number 0, Value.number 4294967303]).info.fh : Int) = 4294967303 % 4294967296 ∧
    (OpCallback_entry open_request
        [Value.number 0, Value.number 0, Value.number 4294967303]).info.flags = open_request.info.flags ∧
    ((0 : Int) ≤ 4294967303 → (4294967303 : Int) < 4294967296 →
      ((OpCallback_entry open_request
        [Value.number 0, Value.number 0, Value.number 4294967303]).info.fh : Int) = 4294967303) ∧
    (∀ (later : bindings_t) (fn : Callback),
      later.info = (OpCallback_entry open_request
        [Value.number 0, Value.number 0, Value.number 4294967303]).info →
      (later.op = OP_FGETATTR ∨ later.op = OP_FTRUNCATE ∨ later.op = OP_WRITE ∨
        later.op = OP_READ ∨ later.op = OP_RELEASE ∨ later.op = OP_RELEASEDIR ∨
        later.op = OP_FLUSH ∨ later.op = OP_FSYNC ∨ later.op = OP_FSYNCDIR) →
      handler_of later later.op = some fn →
      (bindings_dispatch_entry later).2 =
          [Event.call fn (called_argv (bindings_dispatch_entry later).2).length
            (called_argv (bindings_dispatch_entry later).2)] ∧
        (called_argv (bindings_dispatch_entry later).2)[1]? =
          some (Value.number (4294967303 % 4294967296)) ∧
        ((0 : Int) ≤ 4294967303 → (4294967303 : Int) < 4294967296 →
          (called_argv (bindings_dispatch_entry later).2)[1]? = some (Value.number 4294967303)))) ∧
    (OpCallback_entry open_request
      [Value.number 0, Value.number 0, Value.number 4294967303]).info.fh = 7 ∧
    (bindings_dispatch_entry read_request).2 =
      [Event.call (Value.function 2) 6
        [Value.string "/f", Value.number 7, Value.buffer (Data.char_buf "") 4096,
          Value.number 4096, Value.number 0, Value.completion 0]] :=
  ⟨C11_handle_roundtrip_32_bits open_request
      [Value.number 0, Value.number 0, Value.number 7] 7 (Or.inl rfl) rfl rfl,
    C11_handle_roundtrip_32_bits open_request
      [Value.number 0, Value.number 0, Value.number 4294967303] 4294967303
      (Or.inl rfl) rfl rfl,
    by decide, rfl⟩

/-- C20: for every operation kind whose handler is registered,
`bindings_dispatch` calls the handler registered for exactly that kind exactly
once (the events are that one call) and does not signal the gate (the entry
changes only in its result, preset to -1).  The argument list ends in the
completion callback; it is the callback alone for INIT, ERROR and DESTROY and
starts with the path otherwise; for READ and WRITE it is path, file handle,
byte container over `length` bytes, length, offset, callback; for RENAME, LINK
and SYMLINK path, second path, callback; for UTIMENS path, two timestamps,
callback. -/
theorem C20_dispatch_calls_registered_handler (s : State) (handle : Nat) (b : bindings_t)
    (fn : Callback) (hslot : s.bindings_mounted handle = some b)
    (hreg : handler_of b b.op = some fn) :
    ∃ (s1 : State) (argv : List Value),
      bindings_dispatch s handle = some (s1, [Event.call fn argv.length argv]) ∧
      s1.bindings_mounted handle = some { b with result := -1 } ∧
      (∀ j, j ≠ handle → s1.bindings_mounted j = s.bindings_mounted j) ∧
      argv.getLast? = some (b.callback.getD Value.undefined) ∧
      ((b.op = OP_INIT ∨ b.op = OP_ERROR ∨ b.op = OP_DESTROY) →
        argv = [b.callback.getD Value.undefined]) ∧
      (¬ (b.op = OP_INIT ∨ b.op = OP_ERROR ∨ b.op = OP_DESTROY) →
        argv.head? = some (Value.string b.path)) ∧
      ((b.op = OP_READ ∨ b.op = OP_WRITE) →
        argv =
          [Value.string b.path, Value.number (b.info.fh : Int),
            Value.buffer b.data b.length, Value.number b.length, Value.number b.offset,
            b.callback.getD Value.undefined]) ∧
      ((b.op = OP_RENAME ∨ b.op = OP_LINK ∨ b.op = OP_SYMLINK) →
        ∀ dest, b.data = Data.char_buf dest →
          argv = [Value.string b.path, Value.string dest, b.callback.getD Value.undefined]) ∧
      (b.op = OP_UTIMENS →
        ∀ atime mtime, b.data = Data.timespec_pair atime mtime →
          argv =
            [Value.string b.path, bindings_get_date atime, bindings_get_date mtime,
              b.callback.getD Value.undefined]) := by
  have hd := dispatch_entry_present b fn hreg
  obtain ⟨p1, p2, p3, p4, p5, p6, _⟩ := dispatch_argv_shape b fn hreg
  refine ⟨{ s with
      bindings_mounted :=
        Function.update s.bindings_mounted handle (some (bindings_dispatch_entry b).1)
      bindings_current := some handle },
    called_argv (bindings_dispatch_entry b).2, ?_, ?_, ?_, p1, p2, p3, p4, p5, p6⟩
  · rw [bindings_dispatch_some s handle b hslot]
    exact congrArg (fun e => some (_, e)) (congrArg Prod.snd hd)
  · have h1 : (bindings_dispatch_entry b).1 = { b with result := -1 } :=
      congrArg Prod.fst hd
    simp [h1]
  · intro j hj
    simp [Function.update_noteq hj]

theorem C20_dispatch_calls_registered_handler_witness :
    ∃ (s1 : State) (argv : List Value),
      bindings_dispatch
          { bindings_mounted := fun i => if i = 0 then some read_request else none,
            bindings_mounted_count := 1 } 0
        = some (s1, [Event.call (Value.function 2) argv.length argv]) ∧
      s1.bindings_mounted 0 = some { read_request with result := -1 } ∧
      (∀ j, j ≠ 0 → s1.bindings_mounted j =
        ({ bindings_mounted := fun i => if i = 0 then some read_request else none,
           bindings_mounted_count := 1 } : State).bindings_mounted j) ∧
      argv.getLast? = some (read_request.callback.getD Value.undefined) ∧
      ((read_request.op = OP_INIT ∨ read_request.op = OP_ERROR ∨
          read_request.op = OP_DESTROY) →
        argv = [read_request.callback.getD Value.undefined]) ∧
      (¬ (read_request.op = OP_INIT ∨ read_request.op = OP_ERROR ∨
          read_request.op = OP_DESTROY) →
        argv.head? = some (Value.string read_request.path)) ∧
      ((read_request.op = OP_READ ∨ read_request.op = OP_WRITE) →
        argv =
          [Value.string read_request.path, Value.number (read_request.info.fh : Int),
            Value.buffer read_request.data read_request.length,
            Value.number read_request.length, Value.number read_request.offset,
            read_request.callback.getD Value.undefined]) ∧
      ((read_request.op = OP_RENAME ∨ read_request.op = OP_LINK ∨
          read_request.op = OP_SYMLINK) →
        ∀ dest, read_request.data = Data.char_buf dest →
          argv = [Value.string read_request.path, Value.string dest,
            read_request.callback.getD Value.undefined]) ∧
      (read_request.op = OP_UTIMENS →
        ∀ atime mtime, read_request.data = Data.timespec_pair atime mtime →
          argv =
            [Value.string read_request.path, bindings_get_date atime,
              bindings_get_date mtime, read_request.callback.getD Value.undefined]) :=
  C20_dispatch_calls_registered_handler
    { bindings_mounted := fun i => if i = 0 then some read_request else none,
      bindings_mounted_count := 1 } 0 read_request (Value.function 2) rfl rfl

/-! ## Theorems: context query and garbage entries -/

theorem entry_point_context (ctx : fuse_context) (b : bindings_t) (r : fuse_request) :
    (bindings_entry_point ctx b r).context_uid = to_int32 ctx.uid ∧
      (bindings_entry_point ctx b r).context_gid = to_int32 ctx.gid ∧
      (bindings_entry_point ctx b r).context_pid = ctx.pid := by
  cases r <;> exact ⟨rfl, rfl, rfl⟩

theorem dispatch_entry_context (b : bindings_t) :
    (bindings_dispatch_entry b).1.context_uid = b.context_uid ∧
      (bindings_dispatch_entry b).1.context_gid = b.context_gid ∧
      (bindings_dispatch_entry b).1.context_pid = b.context_pid := by
  cases hf : handler_of b b.op with
  | none =>
    have h1 := congrArg Prod.fst (dispatch_entry_absent b hf)
    simp only at h1
    rw [h1]
    exact ⟨rfl, rfl, rfl⟩
  | some fn =>
    have h1 := congrArg Prod.fst (dispatch_entry_present b fn hf)
    simp only at h1
    rw [h1]
    exact ⟨rfl, rfl, rfl⟩

theorem populateContext_after_completion (s s1 : State) (info : List Value)
    (h : OpCallback s info = some s1) :
    PopulateContext s1 =
      some (Except.error "You have to call this inside a fuse operation") := by
  unfold OpCallback at h
  split at h
  · simp at h
  · simp only [Option.some.injEq] at h
    subst h
    rfl

theorem populateContext_after_dispatch (s : State) (handle : Nat) (b : bindings_t)
    (hslot : s.bindings_mounted handle = some b) :
    ∃ s1, bindings_dispatch s handle = some (s1, (bindings_dispatch_entry b).2) ∧
      s1.bindings_current = some handle ∧
      (∀ j, j ≠ handle → s1.bindings_mounted j = s.bindings_mounted j) ∧
      PopulateContext s1 =
        some (Except.ok
          { uid := b.context_uid, gid := b.context_gid, pid := b.context_pid }) := by
  obtain ⟨hu, hg, hp⟩ := dispatch_entry_context b
  refine ⟨_, bindings_dispatch_some s handle b hslot, rfl, ?_, ?_⟩
  · intro j hj
    simp [Function.update_noteq hj]
  · simp [PopulateContext, hu, hg, hp]

/-- C14 (counterexample): two mounts with GETATTR handlers hold a request each
(callers 1000/100/4242 in slot 0 and 2000/200/5252 in slot 1).  Right after the
dispatch of slot 0 the query returns 1000/100/4242; once slot 1 is dispatched
too, the query returns 2000/200/5252 although the gate of slot 0 is still
closed (its completion callback has not fired); and once the callback of slot
1 fires, the query fails although the handler of slot 0 is still pending.
Besides, a caller uid of 4294967295 is captured and returned as -1. -/
theorem C14_other_mount_changes_context :
    (bindings_dispatch two_requests 0).bind (fun r => PopulateContext r.1) =
      some (Except.ok { uid := 1000, gid := 100, pid := 4242 }) ∧
    ((bindings_dispatch two_requests 0).bind (fun r => bindings_dispatch r.1 1)).bind
        (fun r => PopulateContext r.1) =
      some (Except.ok { uid := 2000, gid := 200, pid := 5252 }) ∧
    ((bindings_dispatch two_requests 0).bind (fun r => bindings_dispatch r.1 1)).map
        (fun r => ((r.1.bindings_mounted 0).map (fun b => b.semaphore), r.2.length)) =
      some (some 0, 1) ∧
    (((bindings_dispatch two_requests 0).bind (fun r => bindings_dispatch r.1 1)).bind
        (fun r => OpCallback r.1 [Value.number 1, Value.number 0])).bind PopulateContext =
      some (Except.error "You have to call this inside a fuse operation") ∧
    (((bindings_dispatch two_requests 0).bind (fun r => bindings_dispatch r.1 1)).bind
        (fun r => OpCallback r.1 [Value.number 1, Value.number 0])).map
        (fun s => (s.bindings_mounted 0).map (fun b => b.semaphore)) = some (some 0) ∧
    (bindings_dispatch
        { bindings_mounted := fun i =>
            if i = 0 then
              some (bindings_entry_point { uid := 4294967295, gid := 100, pid := 4242 }
                getattr_only (fuse_request.getattr "/f" {}))
            else none,
          bindings_mounted_count := 1 } 0).bind (fun r => PopulateContext r.1) =
      some (Except.ok { uid := -1, gid := 100, pid := 4242 }) := by
  refine ⟨rfl, rfl, by decide, rfl, by decide, rfl⟩

/-- C14 (amended): for every kernel call of any entry point, once the driver
thread has captured the caller's identifiers (uid and gid converted to the
`int` fields of the entry, pid as it is) and `bindings_dispatch` has called the
handler of that request, a context query in the state the handler is called in
succeeds and returns exactly the captured values, which are the caller's own
uid and gid when these are below 2^31.  The current request is shared by all
mounts: from that state, a `bindings_dispatch` for the entry of another slot
makes the query return the values stored in that entry, and a completion
callback of any slot makes the query fail. -/
theorem C14_context_inside_handler (s : State) (handle : Nat) (b0 : bindings_t)
    (ctx : fuse_context) (r : fuse_request) (fn : Callback)
    (hslot : s.bindings_mounted handle = some (bindings_entry_point ctx b0 r))
    (hreg : handler_of (bindings_entry_point ctx b0 r) (bindings_entry_point ctx b0 r).op
      = some fn) :
    ∃ (s1 : State) (argv : List Value),
      bindings_dispatch s handle = some (s1, [Event.call fn argv.length argv]) ∧
      s1.bindings_current = some handle ∧
      PopulateContext s1 =
        some (Except.ok
          { uid := to_int32 ctx.uid, gid := to_int32 ctx.gid, pid := ctx.pid }) ∧
      (0 ≤ ctx.uid → ctx.uid < 2147483648 → 0 ≤ ctx.gid → ctx.gid < 2147483648 →
        PopulateContext s1 = some (Except.ok ctx)) ∧
      (∀ (other : Nat) (b2 : bindings_t), other ≠ handle →
        s1.bindings_mounted other = some b2 →
        ∃ s2, bindings_dispatch s1 other = some (s2, (bindings_dispatch_entry b2).2) ∧
          PopulateContext s2 =
            some (Except.ok
              { uid := b2.context_uid, gid := b2.context_gid, pid := b2.context_pid })) ∧
      (∀ (info : List Value) (s2 : State), OpCallback s1 info = some s2 →
        PopulateContext s2 =
          some (Except.error "You have to call this inside a fuse operation")) := by
  obtain ⟨s1, hd, hcur, _, hpc⟩ := populateContext_after_dispatch s handle _ hslot
  obtain ⟨hu, hg, hp⟩ := entry_point_context ctx b0 r
  have hev := congrArg Prod.snd (dispatch_entry_present _ fn hreg)
  simp only at hev
  rw [hu, hg, hp] at hpc
  refine ⟨s1, called_argv (bindings_dispatch_entry (bindings_entry_point ctx b0 r)).2,
    ?_, hcur, hpc, ?_, ?_, ?_⟩
  · rw [hd]
    exact congrArg (fun e => some (s1, e)) hev
  · intro h1 h2 h3 h4
    have hu2 : to_int32 ctx.uid = ctx.uid := int_of_uint32_roundtrip ctx.uid (by omega) h2
    have hg2 : to_int32 ctx.gid = ctx.gid := int_of_uint32_roundtrip ctx.gid (by omega) h4
    rw [hpc, hu2, hg2]
  · intro other b2 _ hb2
    obtain ⟨s2, hd2, _, _, hpc2⟩ := populateContext_after_dispatch s1 other b2 hb2
    exact ⟨s2, hd2, hpc2⟩
  · intro info s2 h2
    exact populateContext_after_completion s1 s2 info h2

theorem C14_context_inside_handler_witness :
    ∃ (s1 : State) (argv : List Value),
      bindings_dispatch two_requests 0
        = some (s1, [Event.call (Value.function 1) argv.length argv]) ∧
      s1.bindings_current = some 0 ∧
      PopulateContext s1 =
        some (Except.ok
          { uid := to_int32 1000, gid := to_int32 100, pid := 4242 }) ∧
      ((0 : Int) ≤ 1000 → (1000 : Int) < 2147483648 → (0 : Int) ≤ 100 →
        (100 : Int) < 2147483648 →
        PopulateContext s1 = some (Except.ok { uid := 1000, gid := 100, pid := 4242 })) ∧
      (∀ (other : Nat) (b2 : bindings_t), other ≠ 0 →
        s1.bindings_mounted other = some b2 →
        ∃ s2, bindings_dispatch s1 other = some (s2, (bindings_dispatch_entry b2).2) ∧
          PopulateContext s2 =
            some (Except.ok
              { uid := b2.context_uid, gid := b2.context_gid, pid := b2.context_pid })) ∧
      (∀ (info : List Value) (s2 : State), OpCallback s1 info = some s2 →
        PopulateContext s2 =
          some (Except.error "You have to call this inside a fuse operation")) :=
  C14_context_inside_handler two_requests 0 getattr_only
    { uid := 1000, gid := 100, pid := 4242 } (fuse_request.getattr "/f" {})
    (Value.function 1) rfl rfl

/-- C15 (evaluation at the failing input): before any dispatch the current
request slot is clear and `PopulateContext` fails, and it is clear again after
a completion through `OpCallback`; but after `bindings_dispatch` has completed
an ERROR request on the absent-handler path (no handler called, gate
signalled), `bindings_current` still points to the entry and `PopulateContext`
succeeds. -/
theorem C15_default_path_leaves_current_request :
    PopulateContext error_state =
      some (Except.error "You have to call this inside a fuse operation") ∧
    (bindings_dispatch error_state 0).map (fun r => r.2.length) = some 0 ∧
    (bindings_dispatch error_state 0).map
      (fun r => (r.1.bindings_mounted 0).map (fun b => b.semaphore)) = some (some 1) ∧
    (bindings_dispatch error_state 0).map (fun r => r.1.bindings_current)
      = some (some 0) ∧
    (bindings_dispatch error_state 0).bind (fun r => PopulateContext r.1) =
      some (Except.ok { uid := 0, gid := 0, pid := 0 }) ∧
    ((bindings_dispatch error_state 0).bind
      (fun r => OpCallback r.1 [Value.number 0, Value.number 0])).map
        (fun s => s.bindings_current) = some none := by
  refine ⟨rfl, by decide, by decide, by decide, rfl, by decide⟩

theorem opCallback_entry_semaphore (b : bindings_t) (info : List Value) :
    (OpCallback_entry b info).semaphore = b.semaphore + 1 := by
  have key : ∀ r : Int,
      (if r = 0 then apply_payload { b with result := r } info
        else { b with result := r }).semaphore = b.semaphore := by
    intro r
    split
    · exact (apply_payload_frame _ info).2
    · rfl
  exact congrArg (· + 1) (key _)

/-- C16 (counterexample): a completion callback for an entry whose garbage flag
is set and whose gate count is 0 raises the gate count to 1. -/
theorem C16_garbage_entry_gate_is_signalled :
    garbage_request.gc = 1 ∧ garbage_request.semaphore = 0 ∧
    (OpCallback_entry garbage_request [Value.number 0, Value.number 0]).semaphore = 1 ∧
    (OpCallback_entry garbage_request [Value.number 0, Value.number 0]).semaphore
      ≠ garbage_request.semaphore := by
  refine ⟨rfl, rfl, by decide, by decide⟩

theorem apply_payload_gc (b : bindings_t) (info : List Value) (g : Int) :
    apply_payload { b with gc := g } info = { apply_payload b info with gc := g } := by
  unfold apply_payload bindings_set_dirs
  dsimp only
  split <;> (repeat' split) <;> rfl

theorem opCallback_entry_gc (b : bindings_t) (info : List Value) (g : Int) :
    OpCallback_entry { b with gc := g } info = { OpCallback_entry b info with gc := g } := by
  have key : ∀ r : Int,
      (if r = 0 then apply_payload { b with gc := g, result := r } info
        else { b with gc := g, result := r }) =
      { (if r = 0 then apply_payload { b with result := r } info
          else { b with result := r }) with gc := g } := by
    intro r
    split
    · exact apply_payload_gc { b with result := r } info g
    · rfl
  exact congrArg semaphore_signal (key _)

/-- C16 (amended): a completion callback that arrives for an entry whose garbage
flag is set is treated exactly like one for any other entry: `OpCallback` never
reads the flag, stores the result, applies the payload of a zero result,
raises the gate count by one and clears the current request; it completes
without error as long as the slot still holds the entry. -/
theorem C16_garbage_entry_completion (s : State) (info : List Value) (b : bindings_t)
    (hslot : s.bindings_mounted (arg info 0).Uint32Value = some b) (hgc : b.gc ≠ 0) :
    ∃ s1 b1, OpCallback s info = some s1 ∧
      s1.bindings_mounted (arg info 0).Uint32Value = some b1 ∧
      b1.semaphore = b.semaphore + 1 ∧ b1.gc = b.gc ∧ b1.gc ≠ 0 ∧
      b1 = { OpCallback_entry { b with gc := 0 } info with gc := b.gc } ∧
      s1.bindings_current = none := by
  have hg := opCallback_entry_gc { b with gc := 0 } info b.gc
  have hb : ({ ({ b with gc := 0 } : bindings_t) with gc := b.gc } : bindings_t) = b := rfl
  rw [hb] at hg
  refine ⟨_, OpCallback_entry b info, opCallback_some s info b hslot, by simp,
    opCallback_entry_semaphore b info, ?_, ?_, hg, rfl⟩
  · rw [hg]
  · rw [hg]
    exact hgc

theorem C16_garbage_entry_completion_witness :
    ∃ s1 b1,
      OpCallback
        { bindings_mounted := fun i => if i = 0 then some garbage_request else none,
          bindings_mounted_count := 1 }
        [Value.number 0, Value.number 0] = some s1 ∧
      s1.bindings_mounted (arg [Value.number 0, Value.number 0] 0).Uint32Value = some b1 ∧
      b1.semaphore = garbage_request.semaphore + 1 ∧ b1.gc = garbage_request.gc ∧
      b1.gc ≠ 0 ∧
      b1 = { OpCallback_entry { garbage_request with gc := 0 }
          [Value.number 0, Value.number 0] with gc := garbage_request.gc } ∧
      s1.bindings_current = none :=
  C16_garbage_entry_completion
    { bindings_mounted := fun i => if i = 0 then some garbage_request else none,
      bindings_mounted_count := 1 }
    [Value.number 0, Value.number 0] garbage_request rfl (by decide)

/-! ## Theorems: locking -/

/-- C18 (counterexample): in `bindings_unmount`, already for a path that matches
no entry, the blocking call `fusermount` happens between `mutex_lock` and
`mutex_unlock`; for a mounted path the thread join does as well. -/
theorem C18_unmount_blocks_under_lock :
    bindings_unmount_steps State.empty "/x" =
      [LockStep.mutex_lock, LockStep.table_read, LockStep.fusermount,
        LockStep.mutex_unlock] ∧
    no_blocking_locked false (bindings_unmount_steps State.empty "/x") = false ∧
    bindings_unmount_steps one_mount "/a" =
      [LockStep.mutex_lock, LockStep.table_read, LockStep.entry_write, LockStep.fusermount,
        LockStep.thread_join, LockStep.mutex_unlock] ∧
    no_blocking_locked false (bindings_unmount_steps one_mount "/a") = false := by
  refine ⟨by decide, by decide, by decide, by decide⟩

/-- C18 (amended): in `Mount`, `bindings_unmount` and `bindings_on_close` every
write of the slot table happens while the global lock is held; `Mount` and
`bindings_on_close` hold the lock only around table accesses, with no blocking
call in between; `bindings_unmount` never waits on a completion gate while it
holds the lock, but it does hold the lock across the forced-unmount call (and
across the thread join when an entry was found). -/
theorem C18_lock_discipline (s : State) (info : List Value) (path : String) :
    table_writes_locked false (Mount_steps s info) = true ∧
    table_writes_locked false (bindings_unmount_steps s path) = true ∧
    table_writes_locked false bindings_on_close_steps = true ∧
    no_blocking_locked false (Mount_steps s info) = true ∧
    no_blocking_locked false bindings_on_close_steps = true ∧
    no_gate_wait_locked false (bindings_unmount_steps s path) = true ∧
    no_blocking_locked false (bindings_unmount_steps s path) = false := by
  have hm : Mount_steps s info = [] ∨
      Mount_steps s info =
        [LockStep.mutex_lock, LockStep.table_write, LockStep.mutex_unlock] ∨
      Mount_steps s info =
        [LockStep.mutex_lock, LockStep.table_write, LockStep.mutex_unlock,
          LockStep.mutex_lock, LockStep.table_read, LockStep.mutex_unlock,
          LockStep.entry_write, LockStep.thread_create] := by
    unfold Mount_steps
    split
    · exact Or.inl rfl
    · split
      · exact Or.inr (Or.inl rfl)
      · exact Or.inr (Or.inr rfl)
  have hu : bindings_unmount_steps s path =
        [LockStep.mutex_lock, LockStep.table_read, LockStep.fusermount,
          LockStep.mutex_unlock] ∨
      bindings_unmount_steps s path =
        [LockStep.mutex_lock, LockStep.table_read, LockStep.entry_write,
          LockStep.fusermount, LockStep.thread_join, LockStep.mutex_unlock] := by
    unfold bindings_unmount_steps
    cases (bindings_find_mounted s path).isSome
    · exact Or.inl rfl
    · exact Or.inr rfl
  refine ⟨?_, ?_, by decide, ?_, by decide, ?_, ?_⟩
  · rcases hm with h | h | h <;> rw [h] <;> decide
  · rcases hu with h | h <;> rw [h] <;> decide
  · rcases hm with h | h | h <;> rw [h] <;> decide
  · rcases hu with h | h <;> rw [h] <;> decide
  · rcases hu with h | h <;> rw [h] <;> decide

/-! ## Theorems: timestamps and attribute payloads -/

theorem date_roundtrip_whole_seconds (sec : Int) :
    bindings_set_date (bindings_get_date { tv_sec := sec, tv_nsec := 0 }) =
      { tv_sec := sec, tv_nsec := 0 } := by
  have h0 : to_int32 (Int.tdiv 0 1000) = 0 := by decide
  have h1 : Int.tdiv (sec * 1000) 1000 = sec := Int.mul_tdiv_cancel sec (by decide)
  simp only [bindings_get_date, bindings_set_date, Value.NumberValue, h0, add_zero, h1]
  congr 1
  omega

/-- C21 (evaluation at the failing input): the timestamp of 1 s and 500 ms has
tv_sec >= 0 and a whole number of milliseconds in tv_nsec, but
`bindings_get_date` divides the nanoseconds by 1000 and adds the quotient
500000 as milliseconds, so the point in time is 501000 ms and
`bindings_set_date` turns it back into 501 s and 0 ns. -/
theorem C21_date_roundtrip_loses_milliseconds :
    (0 : Int) ≤ half_past_one.tv_sec ∧
    half_past_one.tv_nsec % 1000000 = 0 ∧
    0 ≤ half_past_one.tv_nsec ∧ half_past_one.tv_nsec < 1000000000 ∧
    (bindings_get_date half_past_one).NumberValue = 501000 ∧
    bindings_set_date (bindings_get_date half_past_one) = { tv_sec := 501, tv_nsec := 0 } ∧
    bindings_set_date (bindings_get_date half_past_one) ≠ half_past_one ∧
    bindings_set_date (Value.date 1500) = half_past_one := by
  refine ⟨by decide, by decide, by decide, by decide, by decide, by decide, by decide,
    by decide⟩

theorem bindings_set_stat_fields (st : stat) (obj : Value) :
    (bindings_set_stat st obj).st_dev =
      (if obj.Has "dev" then (obj.Get "dev").NumberValue else st.st_dev) ∧
    (bindings_set_stat st obj).st_ino =
      (if obj.Has "ino" then (obj.Get "ino").NumberValue else st.st_ino) ∧
    (bindings_set_stat st obj).st_mode =
      (if obj.Has "mode" then ((obj.Get "mode").Uint32Value : Int) else st.st_mode) ∧
    (bindings_set_stat st obj).st_nlink =
      (if obj.Has "nlink" then (obj.Get "nlink").NumberValue else st.st_nlink) ∧
    (bindings_set_stat st obj).st_uid =
      (if obj.Has "uid" then (obj.Get "uid").NumberValue else st.st_uid) ∧
    (bindings_set_stat st obj).st_gid =
      (if obj.Has "gid" then (obj.Get "gid").NumberValue else st.st_gid) ∧
    (bindings_set_stat st obj).st_rdev =
      (if obj.Has "rdev" then (obj.Get "rdev").NumberValue else st.st_rdev) ∧
    (bindings_set_stat st obj).st_size =
      (if obj.Has "size" then (obj.Get "size").NumberValue else st.st_size) ∧
    (bindings_set_stat st obj).st_blocks =
      (if obj.Has "blocks" then (obj.Get "blocks").NumberValue else st.st_blocks) ∧
    (bindings_set_stat st obj).st_blksize =
      (if obj.Has "blksize" then (obj.Get "blksize").NumberValue else st.st_blksize) ∧
    (bindings_set_stat st obj).st_mtim =
      (if obj.Has "mtime" then bindings_set_date (obj.Get "mtime") else st.st_mtim) ∧
    (bindings_set_stat st obj).st_ctim =
      (if obj.Has "ctime" then bindings_set_date (obj.Get "ctime") else st.st_ctim) ∧
    (bindings_set_stat st obj).st_atim =
      (if obj.Has "atime" then bindings_set_date (obj.Get "atime") else st.st_atim) := by
  unfold bindings_set_stat
  refine ⟨?_, ?_, ?_, ?_, ?_, ?_, ?_, ?_, ?_, ?_, ?_, ?_, ?_⟩
  · simp only [apply_ite stat.st_dev, ite_self]
  · simp only [apply_ite stat.st_ino, ite_self]
  · simp only [apply_ite stat.st_mode, ite_self]
  · simp only [apply_ite stat.st_nlink, ite_self]
  · simp only [apply_ite stat.st_uid, ite_self]
  · simp only [apply_ite stat.st_gid, ite_self]
  · simp only [apply_ite stat.st_rdev, ite_self]
  · simp only [apply_ite stat.st_size, ite_self]
  · simp only [apply_ite stat.st_blocks, ite_self]
  · simp only [apply_ite stat.st_blksize, ite_self]
  · simp only [apply_ite stat.st_mtim, ite_self]
  · simp only [apply_ite stat.st_ctim, ite_self]
  · simp only [apply_ite stat.st_atim, ite_self]

theorem bindings_set_statfs_fields (st : statvfs) (obj : Value) :
    (bindings_set_statfs st obj).f_bsize =
      (if obj.Has "bsize" then ((obj.Get "bsize").Uint32Value : Int) else st.f_bsize) ∧
    (bindings_set_statfs st obj).f_frsize =
      (if obj.Has "frsize" then ((obj.Get "frsize").Uint32Value : Int) else st.f_frsize) ∧
    (bindings_set_statfs st obj).f_blocks =
      (if obj.Has "blocks" then ((obj.Get "blocks").Uint32Value : Int) else st.f_blocks) ∧
    (bindings_set_statfs st obj).f_bfree =
      (if obj.Has "bfree" then ((obj.Get "bfree").Uint32Value : Int) else st.f_bfree) ∧
    (bindings_set_statfs st obj).f_bavail =
      (if obj.Has "bavail" then ((obj.Get "bavail").Uint32Value : Int) else st.f_bavail) ∧
    (bindings_set_statfs st obj).f_files =
      (if obj.Has "files" then ((obj.Get "files").Uint32Value : Int) else st.f_files) ∧
    (bindings_set_statfs st obj).f_ffree =
      (if obj.Has "ffree" then ((obj.Get "ffree").Uint32Value : Int) else st.f_ffree) ∧
    (bindings_set_statfs st obj).f_favail =
      (if obj.Has "favail" then ((obj.Get "favail").Uint32Value : Int) else st.f_favail) ∧
    (bindings_set_statfs st obj).f_fsid =
      (if obj.Has "fsid" then ((obj.Get "fsid").Uint32Value : Int) else st.f_fsid) ∧
    (bindings_set_statfs st obj).f_flag =
      (if obj.Has "flag" then ((obj.Get "flag").Uint32Value : Int) else st.f_flag) ∧
    (bindings_set_statfs st obj).f_namemax =
      (if obj.Has "namemax" then ((obj.Get "namemax").Uint32Value : Int) else st.f_namemax) := by
  unfold bindings_set_statfs
  refine ⟨?_, ?_, ?_, ?_, ?_, ?_, ?_, ?_, ?_, ?_, ?_⟩
  · simp only [apply_ite statvfs.f_bsize, ite_self]
  · simp only [apply_ite statvfs.f_frsize, ite_self]
  · simp only [apply_ite statvfs.f_blocks, ite_self]
  · simp only [apply_ite statvfs.f_bfree, ite_self]
  · simp only [apply_ite statvfs.f_bavail, ite_self]
  · simp only [apply_ite statvfs.f_files, ite_self]
  · simp only [apply_ite statvfs.f_ffree, ite_self]
  · simp only [apply_ite statvfs.f_favail, ite_self]
  · simp only [apply_ite statvfs.f_fsid, ite_self]
  · simp only [apply_ite statvfs.f_flag, ite_self]
  · simp only [apply_ite statvfs.f_namemax, ite_self]

theorem opCallback_entry_zero (b : bindings_t) (info : List Value)
    (hcode : arg info 1 = Value.number 0) :
    (OpCallback_entry b info).data = (apply_payload { b with result := 0 } info).data := by
  have h1 := arg_number_length info 1 0 hcode
  simp [OpCallback_entry, hcode, h1, Value.IsNumber, Value.Uint32Value, Value.NumberValue,
    int_of_uint32, semaphore_signal]

/-- C22: for a GETATTR or FGETATTR (and likewise a STATFS) completion with
result code 0, the output structure becomes `bindings_set_stat`
(`bindings_set_statfs`) of the payload when the payload is present and an
object, and is left as it was otherwise; `bindings_set_stat` and
`bindings_set_statfs` overwrite each field whose key the payload has with the
conversion of that property and leave every field whose key is absent at its
prior value. -/
theorem C22_attribute_payload_frame (b : bindings_t) (info : List Value)
    (hcode : arg info 1 = Value.number 0) :
    (∀ st, (b.op = OP_GETATTR ∨ b.op = OP_FGETATTR) → b.data = Data.stat_buf st →
      (info.length > 2 ∧ (arg info 2).IsObject = true →
        (OpCallback_entry b info).data =
          Data.stat_buf (bindings_set_stat st (arg info 2))) ∧
      (¬ (info.length > 2 ∧ (arg info 2).IsObject = true) →
        (OpCallback_entry b info).data = Data.stat_buf st)) ∧
    (∀ st, b.op = OP_STATFS → b.data = Data.statvfs_buf st →
      (info.length > 2 ∧ (arg info 2).IsObject = true →
        (OpCallback_entry b info).data =
          Data.statvfs_buf (bindings_set_statfs st (arg info 2))) ∧
      (¬ (info.length > 2 ∧ (arg info 2).IsObject = true) →
        (OpCallback_entry b info).data = Data.statvfs_buf st)) ∧
    (∀ (st : stat) (obj : Value),
      (bindings_set_stat st obj).st_dev =
        (if obj.Has "dev" then (obj.Get "dev").NumberValue else st.st_dev) ∧
      (bindings_set_stat st obj).st_ino =
        (if obj.Has "ino" then (obj.Get "ino").NumberValue else st.st_ino) ∧
      (bindings_set_stat st obj).st_mode =
        (if obj.Has "mode" then ((obj.Get "mode").Uint32Value : Int) else st.st_mode) ∧
      (bindings_set_stat st obj).st_nlink =
        (if obj.Has "nlink" then (obj.Get "nlink").NumberValue else st.st_nlink) ∧
      (bindings_set_stat st obj).st_uid =
        (if obj.Has "uid" then (obj.Get "uid").NumberValue else st.st_uid) ∧
      (bindings_set_stat st obj).st_gid =
        (if obj.Has "gid" then (obj.Get "gid").NumberValue else st.st_gid) ∧
      (bindings_set_stat st obj).st_rdev =
        (if obj.Has "rdev" then (obj.Get "rdev").NumberValue else st.st_rdev) ∧
      (bindings_set_stat st obj).st_size =
        (if obj.Has "size" then (obj.Get "size").NumberValue else st.st_size) ∧
      (bindings_set_stat st obj).st_blocks =
        (if obj.Has "blocks" then (obj.Get "blocks").NumberValue else st.st_blocks) ∧
      (bindings_set_stat st obj).st_blksize =
        (if obj.Has "blksize" then (obj.Get "blksize").NumberValue else st.st_blksize) ∧
      (bindings_set_stat st obj).st_mtim =
        (if obj.Has "mtime" then bindings_set_date (obj.Get "mtime") else st.st_mtim) ∧
      (bindings_set_stat st obj).st_ctim =
        (if obj.Has "ctime" then bindings_set_date (obj.Get "ctime") else st.st_ctim) ∧
      (bindings_set_stat st obj).st_atim =
        (if obj.Has "atime" then bindings_set_date (obj.Get "atime") else st.st_atim)) ∧
    (∀ (st : statvfs) (obj : Value),
      (bindings_set_statfs st obj).f_bsize =
        (if obj.Has "bsize" then ((obj.Get "bsize").Uint32Value : Int) else st.f_bsize) ∧
      (bindings_set_statfs st obj).f_frsize =
        (if obj.Has "frsize" then ((obj.Get "frsize").Uint32Value : Int) else st.f_frsize) ∧
      (bindings_set_statfs st obj).f_blocks =
        (if obj.Has "blocks" then ((obj.Get "blocks").Uint32Value : Int) else st.f_blocks) ∧
      (bindings_set_statfs st obj).f_bfree =
        (if obj.Has "bfree" then ((obj.Get "bfree").Uint32Value : Int) else st.f_bfree) ∧
      (bindings_set_statfs st obj).f_bavail =
        (if obj.Has "bavail" then ((obj.Get "bavail").Uint32Value : Int) else st.f_bavail) ∧
      (bindings_set_statfs st obj).f_files =
        (if obj.Has "files" then ((obj.Get "files").Uint32Value : Int) else st.f_files) ∧
      (bindings_set_statfs st obj).f_ffree =
        (if obj.Has "ffree" then ((obj.Get "ffree").Uint32Value : Int) else st.f_ffree) ∧
      (bindings_set_statfs st obj).f_favail =
        (if obj.Has "favail" then ((obj.Get "favail").Uint32Value : Int) else st.f_favail) ∧
      (bindings_set_statfs st obj).f_fsid =
        (if obj.Has "fsid" then ((obj.Get "fsid").Uint32Value : Int) else st.f_fsid) ∧
      (bindings_set_statfs st obj).f_flag =
        (if obj.Has "flag" then ((obj.Get "flag").Uint32Value : Int) else st.f_flag) ∧
      (bindings_set_statfs st obj).f_namemax =
        (if obj.Has "namemax" then ((obj.Get "namemax").Uint32Value : Int) else st.f_namemax)) := by
  have hz := opCallback_entry_zero b info hcode
  refine ⟨?_, ?_, bindings_set_stat_fields, bindings_set_statfs_fields⟩
  · intro st hop hdata
    constructor
    · intro hobj
      rw [hz]
      rcases hop with hop | hop <;> simp [apply_payload, hop, hobj, hdata]
    · intro hobj
      rw [hz]
      rcases hop with hop | hop <;> simp [apply_payload, hop, hobj, hdata]
  · intro st hop hdata
    constructor
    · intro hobj
      rw [hz]
      simp [apply_payload, hop, hobj, hdata]
    · intro hobj
      rw [hz]
      simp [apply_payload, hop, hobj, hdata]

theorem C22_attribute_payload_frame_witness :
    (OpCallback_entry getattr_request
        [Value.number 0, Value.number 0, Value.object [("size", Value.number 5)]]).data =
      Data.stat_buf (bindings_set_stat {} (Value.object [("size", Value.number 5)])) ∧
    bindings_set_stat {} (Value.object [("size", Value.number 5)]) = { st_size := 5 } ∧
    (OpCallback_entry statfs_request
        [Value.number 0, Value.number 0, Value.object [("files", Value.number 9)]]).data =
      Data.statvfs_buf
        (bindings_set_statfs { f_bsize := 512 } (Value.object [("files", Value.number 9)])) ∧
    bindings_set_statfs { f_bsize := 512 } (Value.object [("files", Value.number 9)]) =
      { f_bsize := 512, f_files := 9 } ∧
    (OpCallback_entry statfs_request [Value.number 0, Value.number 0]).data =
      Data.statvfs_buf { f_bsize := 512 } :=
  ⟨((C22_attribute_payload_frame getattr_request
      [Value.number 0, Value.number 0, Value.object [("size", Value.number 5)]] rfl).1
      {} (Or.inl rfl) rfl).1 ⟨by decide, rfl⟩,
    by decide,
    ((C22_attribute_payload_frame statfs_request
      [Value.number 0, Value.number 0, Value.object [("files", Value.number 9)]] rfl).2.1
      { f_bsize := 512 } rfl rfl).1 ⟨by decide, rfl⟩,
    by decide,
    ((C22_attribute_payload_frame statfs_request [Value.number 0, Value.number 0] rfl).2.1
      { f_bsize := 512 } rfl rfl).2 (by decide)⟩

/-! ## Theorems: requests in flight -/

/-- C17 (evaluation at the failing input): mounts "/a" and "/b" take slots 0 and
1, and the entry of "/b" stores index 0.  With the handler of a request of
"/a" pending (one handler call, gate closed), freeing the entry of "/b" clears
slot 0, and a third mount "/c" takes slot 0.  The driver thread of "/c" raises
a request and its handler is called (gate closed).  The pending handler of
"/a" then fires its completion callback, bound to index 0: `OpCallback` finds
the entry of "/c", stores result 0 and opens its gate.  The call of "/c"
returns 0 and its driver thread raises the next request, which is dispatched
to the handler: two requests of "/c" have reached the dispatcher and the
completion callback of neither has fired; the only completion of the run is
the one of "/a". -/
theorem C17_foreign_completion_opens_gate :
    (run_two.bindings_mounted 0).map (fun b => (b.mnt, b.index)) = some ("/a", 0) ∧
    (run_two.bindings_mounted 1).map (fun b => (b.mnt, b.index)) = some ("/b", 0) ∧
    run_a_dispatched.map
        (fun r => (r.2.length, (r.1.bindings_mounted 0).map (fun b => b.semaphore))) =
      some (1, some 0) ∧
    run_a_dispatched.map (fun r => (called_argv r.2).getLast?) =
      some (some (Value.completion 0)) ∧
    run_b_freed.map
        (fun s => ((s.bindings_mounted 0).isNone, (s.bindings_mounted 1).isSome)) =
      some (true, true) ∧
    run_c_mounted.map (fun s => (s.bindings_mounted 0).map (fun b => b.mnt)) =
      some (some "/c") ∧
    run_c_dispatched.map
        (fun r => (r.2.length, (r.1.bindings_mounted 0).map (fun b => b.semaphore))) =
      some (1, some 0) ∧
    run_a_completes.map
        (fun s => (s.bindings_mounted 0).map (fun b => (b.mnt, b.semaphore, b.result))) =
      some (some ("/c", 1, 0)) ∧
    run_c_leaves.map (fun r => r.1) = some 0 ∧
    run_c_second.map
        (fun r => (r.2.length, (r.1.bindings_mounted 0).map (fun b => (b.mnt, b.path)))) =
      some (1, some ("/c", "/z")) := by
  refine ⟨by decide, by decide, by decide, rfl, by decide, by decide, by decide, by decide,
    by decide, by decide⟩

end FuseBindings
